import Mathlib

/-!
# Hospital-records REST service (`main.go`): handlers over a document store

A shallow embedding of the eight route handlers registered in `main`
(`GET`/`POST`/`PUT`/`DELETE` for `/doctor` and `/patient`), together with a
model of the three library facilities they call:

* `primitive.ObjectIDFromHex` / `ObjectID.Hex` (identifier syntax),
* `c.BodyParser` (JSON body into a zero-initialised struct),
* the collection operations `Find`, `InsertOne`, `FindOne`,
  `FindOneAndUpdate` and `DeleteOne`.

The store is explicit state (`Db`); what a request cannot control (the
identifier the driver generates, and which store round trips fail) is the
explicit input `Env`.
-/

namespace HRMS

/-! ## Identifiers -/

/-- A 12-byte object identifier (`primitive.ObjectID`, a `[12]byte`). -/
structure ObjectID where
  bytes : List (Fin 256)
  size : bytes.length = 12
deriving DecidableEq

/-- Value of one hexadecimal digit (`fromHexChar` of `encoding/hex`): digits,
lower-case and upper-case letters are accepted, anything else is rejected. -/
def fromHexChar (c : Char) : Option Nat :=
  let n := c.toNat
  if 48 ≤ n ∧ n ≤ 57 then some (n - 48)
  else if 97 ≤ n ∧ n ≤ 102 then some (n - 97 + 10)
  else if 65 ≤ n ∧ n ≤ 70 then some (n - 65 + 10)
  else none

/-- Decoding of a hexadecimal text, two digits per byte (`hex.Decode`); an odd
number of digits or a character that is no digit is an error. -/
def hexDecode : List Char → Option (List (Fin 256))
  | [] => some []
  | [_] => none
  | a :: b :: rest =>
    match fromHexChar a, fromHexChar b, hexDecode rest with
    | some hi, some lo, some bs => some (Fin.ofNat (hi * 16 + lo) :: bs)
    | _, _, _ => none

/-- The digit table of `encoding/hex` (`hextable`, lower case). -/
def hextable : List Char := "0123456789abcdef".data

/-- Encoding of bytes as hexadecimal text (`hex.Encode`): high digit, then
low digit. -/
def hexEncode : List (Fin 256) → List Char
  | [] => []
  | b :: bs => hextable.getD (b.val / 16) '0' :: hextable.getD (b.val % 16) '0' :: hexEncode bs

/-- Parse of a path identifier (`primitive.ObjectIDFromHex`): the text must be
24 bytes long and decode as hexadecimal. -/
def ObjectIDFromHex (s : String) : Option ObjectID :=
  if s.utf8ByteSize ≠ 24 then none
  else
    match hexDecode s.data with
    | none => none
    | some bs => if h : bs.length = 12 then some ⟨bs, h⟩ else none

/-- Text form of an identifier (`ObjectID.Hex`). -/
def ObjectID.Hex (o : ObjectID) : String := String.mk (hexEncode o.bytes)

/-- A well-formed identifier in the words of the contract: 24 characters, each
a hexadecimal digit. -/
def isHex24 (s : String) : Prop :=
  s.length = 24 ∧ ∀ c ∈ s.data, (fromHexChar c).isSome = true

/-! ## Data model -/

/-- A `float64`, by its IEEE-754 bit pattern. The handlers only carry such
values between body, store and response; the zero value is `+0`. -/
structure Float64 where
  bits : Nat
deriving DecidableEq

/-- The `Doctor` struct. -/
structure Doctor where
  ID : String
  Name : String
  Specialty : String
  Salary : Float64
deriving DecidableEq

/-- The `Patient` struct. -/
structure Patient where
  ID : String
  Name : String
  Age : Float64
  Condition : String
  Checked : Bool
  DoctorID : String
deriving DecidableEq

/-- Zero value of `Doctor` (`new(Doctor)`, `&Doctor{}`). -/
def Doctor.zero : Doctor := ⟨"", "", "", ⟨0⟩⟩

/-- Zero value of `Patient` (`new(Patient)`, `&Patient{}`). -/
def Patient.zero : Patient := ⟨"", "", ⟨0⟩, "", false, ""⟩

/-! ## Request bodies and `BodyParser` -/

/-- The members of a JSON object that the decoder maps to `Doctor` fields
(`json:"id"`, `"name"`, `"specialty"`, `"salary"`); `none` is a member the
body leaves out. -/
structure DoctorJSON where
  id : Option String
  name : Option String
  specialty : Option String
  salary : Option Float64
deriving DecidableEq

/-- The members of a JSON object that the decoder maps to `Patient` fields. -/
structure PatientJSON where
  id : Option String
  name : Option String
  age : Option Float64
  condition : Option String
  checked : Option Bool
  doctorId : Option String
deriving DecidableEq

/-- A request body: one the decoder rejects (with its error text), or an
object with the members it holds. -/
inductive RequestBody (α : Type) where
  | unparsable (err : String)
  | object (members : α)

/-- Decoding of an object into `new(Doctor)`: a member that is present
overwrites its field, the other fields keep the zero value. -/
def DoctorJSON.decode (j : DoctorJSON) : Doctor :=
  { ID := j.id.getD Doctor.zero.ID
    Name := j.name.getD Doctor.zero.Name
    Specialty := j.specialty.getD Doctor.zero.Specialty
    Salary := j.salary.getD Doctor.zero.Salary }

/-- Decoding of an object into `new(Patient)`. -/
def PatientJSON.decode (j : PatientJSON) : Patient :=
  { ID := j.id.getD Patient.zero.ID
    Name := j.name.getD Patient.zero.Name
    Age := j.age.getD Patient.zero.Age
    Condition := j.condition.getD Patient.zero.Condition
    Checked := j.checked.getD Patient.zero.Checked
    DoctorID := j.doctorId.getD Patient.zero.DoctorID }

/-- Call `c.BodyParser(doctor)` on `new(Doctor)`: the decoder's error, or the
decoded entity. -/
def BodyParserDoctor : RequestBody DoctorJSON → Except String Doctor
  | .unparsable err => .error err
  | .object j => .ok j.decode

/-- Call `c.BodyParser(patient)` on `new(Patient)`. -/
def BodyParserPatient : RequestBody PatientJSON → Except String Patient
  | .unparsable err => .error err
  | .object j => .ok j.decode

/-! ## Responses -/

/-- What a handler sends: plain text, a JSON string, or the JSON form of an
entity or of a sequence of entities. -/
inductive ResponseBody where
  | text (s : String)
  | jsonString (s : String)
  | doctor (d : Doctor)
  | doctors (ds : List Doctor)
  | patient (p : Patient)
  | patients (ps : List Patient)
deriving DecidableEq

/-- An HTTP response: status code and body. -/
structure Response where
  status : Nat
  body : ResponseBody
deriving DecidableEq

/-- Reason phrase of a status code (`utils.StatusMessage`), for the codes the
handlers send. -/
def StatusMessage (status : Nat) : String :=
  if status = 200 then "OK"
  else if status = 201 then "Created"
  else if status = 400 then "Bad Request"
  else if status = 404 then "Not Found"
  else if status = 500 then "Internal Server Error"
  else ""

/-- The response of `c.SendStatus(status)`: the status with its reason phrase
as body (no body has been written before). -/
def SendStatus (status : Nat) : Response := ⟨status, .text (StatusMessage status)⟩

/-- The response of `c.Status(status).SendString(s)`. -/
def SendString (status : Nat) (s : String) : Response := ⟨status, .text s⟩

/-! ## The document store -/

/-- Value of a document's `_id`: an object identifier, or a string (what a
non-empty `ID` field would be marshalled to). -/
inductive BsonId where
  | oid (o : ObjectID)
  | str (s : String)
deriving DecidableEq

/-- Whether an `_id` is an object identifier. -/
def BsonId.isOid : BsonId → Bool
  | .oid _ => true
  | .str _ => false

/-- Decoding of an `_id` into the `ID string` field: an object identifier is
rendered as its hexadecimal text. -/
def BsonId.decode : BsonId → String
  | .oid o => o.Hex
  | .str s => s

/-- A document of collection `doctors`, keys `_id`, `name`, `specialty`,
`salary`. -/
structure DoctorDoc where
  _id : BsonId
  name : String
  specialty : String
  salary : Float64
deriving DecidableEq

/-- A document of collection `patients`; `doctorId` is absent (`none`) when it
was inserted empty (`bson:"doctorId,omitempty"`). -/
structure PatientDoc where
  _id : BsonId
  name : String
  age : Float64
  condition : String
  checked : Bool
  doctorId : Option String
deriving DecidableEq

/-- Marshalling of a `Doctor` for insertion: `_id,omitempty` drops an empty
`ID`, and the driver then adds the identifier it generated. -/
def Doctor.marshal (generated : ObjectID) (d : Doctor) : DoctorDoc :=
  { _id := if d.ID = "" then .oid generated else .str d.ID
    name := d.Name
    specialty := d.Specialty
    salary := d.Salary }

/-- Marshalling of a `Patient` for insertion. -/
def Patient.marshal (generated : ObjectID) (p : Patient) : PatientDoc :=
  { _id := if p.ID = "" then .oid generated else .str p.ID
    name := p.Name
    age := p.Age
    condition := p.Condition
    checked := p.Checked
    doctorId := if p.DoctorID = "" then none else some p.DoctorID }

/-- Decoding of a stored document into a `Doctor`. -/
def DoctorDoc.decode (doc : DoctorDoc) : Doctor :=
  { ID := doc._id.decode, Name := doc.name, Specialty := doc.specialty, Salary := doc.salary }

/-- Decoding of a stored document into a zero `Patient`: an absent `doctorId`
leaves the field empty. -/
def PatientDoc.decode (doc : PatientDoc) : Patient :=
  { ID := doc._id.decode, Name := doc.name, Age := doc.age, Condition := doc.condition
    Checked := doc.checked, DoctorID := doc.doctorId.getD "" }

/-- A call issued to the store, with its arguments. -/
inductive StoreCall where
  | find (collection : String)
  | insertDoctor (d : Doctor)
  | insertPatient (p : Patient)
  | findOne (collection : String) (id : BsonId)
  | updateDoctor (id : ObjectID) (name specialty : String) (salary : Float64)
  | updatePatient (id : ObjectID) (name : String) (age : Float64) (condition : String)
      (checked : Bool) (doctorId : String)
  | deleteOne (collection : String) (id : ObjectID)
deriving DecidableEq

/-- The database `mg.Db`: the two collections in storage order, and the calls
issued to the store so far. -/
structure Db where
  doctors : List DoctorDoc
  patients : List PatientDoc
  log : List StoreCall
deriving DecidableEq

/-- A failed store round trip: the error text the driver reports, and whether
the store had carried the operation out before the failure (a write whose
acknowledgement is lost is applied, and the driver still reports an error). -/
structure Fault where
  err : String
  applied : Bool
deriving DecidableEq

/-- What a request does not control: the identifier the driver generates for
an insert, and for each store round trip of the request (numbered from 0)
whether it fails, and how. -/
structure Env where
  newObjectID : ObjectID
  fault : Nat → Option Fault

/-- An error of a store operation: `mongo.ErrNoDocuments`, or any other. -/
inductive MongoError where
  | ErrNoDocuments
  | other (msg : String)
deriving DecidableEq

/-- Adds a call to the log. -/
def Db.record (db : Db) (call : StoreCall) : Db := { db with log := db.log ++ [call] }

/-- Replacement of the first element that satisfies `p` by its image under `f`. -/
def updateFirst {α : Type} (p : α → Bool) (f : α → α) : List α → List α
  | [] => []
  | x :: xs => if p x then f x :: xs else x :: updateFirst p f xs

/-- Call `Collection("doctors").Find` with the empty filter: a cursor over all
documents in storage order, or the error of a failed round trip. -/
def FindDoctors (env : Env) (k : Nat) (db : Db) : Except String (List DoctorDoc) × Db :=
  let db1 := db.record (.find "doctors")
  match env.fault k with
  | some f => (.error f.err, db1)
  | none => (.ok db.doctors, db1)

/-- Call `cursor.All` into a `[]Doctor`: every document of the cursor, decoded;
draining the cursor (round trip `k`) may fail. -/
def CursorAllDoctors (env : Env) (k : Nat) (cursor : List DoctorDoc) :
    Except String (List Doctor) :=
  match env.fault k with
  | some f => .error f.err
  | none => .ok (cursor.map DoctorDoc.decode)

/-- Call `Collection("patients").Find` with the empty filter. -/
def FindPatients (env : Env) (k : Nat) (db : Db) : Except String (List PatientDoc) × Db :=
  let db1 := db.record (.find "patients")
  match env.fault k with
  | some f => (.error f.err, db1)
  | none => (.ok db.patients, db1)

/-- Call `cursor.All` into a `[]Patient`. -/
def CursorAllPatients (env : Env) (k : Nat) (cursor : List PatientDoc) :
    Except String (List Patient) :=
  match env.fault k with
  | some f => .error f.err
  | none => .ok (cursor.map PatientDoc.decode)

/-- The database once the store has carried out the insert of `doc` into
`doctors`: the document is appended, unless its `_id` is already in the
collection (duplicate key), which stores nothing. -/
def Db.insertDoctor (db : Db) (doc : DoctorDoc) : Db :=
  if db.doctors.any (fun x => decide (x._id = doc._id)) then db
  else { db with doctors := db.doctors ++ [doc] }

/-- The database once the store has carried out the insert of `doc` into
`patients`. -/
def Db.insertPatient (db : Db) (doc : PatientDoc) : Db :=
  if db.patients.any (fun x => decide (x._id = doc._id)) then db
  else { db with patients := db.patients ++ [doc] }

/-- Call `InsertOne` on `doctors`: the marshalled document is appended and its
`_id` returned; an `_id` already in the collection (duplicate key) is an error
and stores nothing. A failed round trip is an error too, whether or not the
store had carried the insert out. -/
def InsertOneDoctor (env : Env) (k : Nat) (d : Doctor) (db : Db) : Except String BsonId × Db :=
  let db1 := db.record (.insertDoctor d)
  let doc := d.marshal env.newObjectID
  match env.fault k with
  | some f => (.error f.err, if f.applied then db1.insertDoctor doc else db1)
  | none =>
    if db.doctors.any (fun x => decide (x._id = doc._id)) then
      (.error "E11000 duplicate key error", db1)
    else (.ok doc._id, db1.insertDoctor doc)

/-- Call `InsertOne` on `patients`. -/
def InsertOnePatient (env : Env) (k : Nat) (p : Patient) (db : Db) : Except String BsonId × Db :=
  let db1 := db.record (.insertPatient p)
  let doc := p.marshal env.newObjectID
  match env.fault k with
  | some f => (.error f.err, if f.applied then db1.insertPatient doc else db1)
  | none =>
    if db.patients.any (fun x => decide (x._id = doc._id)) then
      (.error "E11000 duplicate key error", db1)
    else (.ok doc._id, db1.insertPatient doc)

/-- Call `FindOne` on `doctors` with filter `_id = id`: the first matching
document, `ErrNoDocuments` when none matches, another error when the round
trip fails. -/
def FindOneDoctor (env : Env) (k : Nat) (id : BsonId) (db : Db) :
    Except MongoError DoctorDoc × Db :=
  let db1 := db.record (.findOne "doctors" id)
  match env.fault k with
  | some f => (.error (.other f.err), db1)
  | none =>
    match db.doctors.find? (fun x => decide (x._id = id)) with
    | none => (.error .ErrNoDocuments, db1)
    | some doc => (.ok doc, db1)

/-- Call `FindOne` on `patients` with filter `_id = id`. -/
def FindOnePatient (env : Env) (k : Nat) (id : BsonId) (db : Db) :
    Except MongoError PatientDoc × Db :=
  let db1 := db.record (.findOne "patients" id)
  match env.fault k with
  | some f => (.error (.other f.err), db1)
  | none =>
    match db.patients.find? (fun x => decide (x._id = id)) with
    | none => (.error .ErrNoDocuments, db1)
    | some doc => (.ok doc, db1)

/-- Call `SingleResult.Decode` into a `Doctor`: on an error result the target
is left as it is. -/
def DecodeDoctor (r : Except MongoError DoctorDoc) (target : Doctor) : Doctor :=
  match r with
  | .error _ => target
  | .ok doc => { target with ID := doc._id.decode, Name := doc.name, Specialty := doc.specialty
                             Salary := doc.salary }

/-- Call `SingleResult.Decode` into a `Patient`: on an error result the target
is left as it is, and so is `DoctorID` when the document has no `doctorId`. -/
def DecodePatient (r : Except MongoError PatientDoc) (target : Patient) : Patient :=
  match r with
  | .error _ => target
  | .ok doc => { target with ID := doc._id.decode, Name := doc.name, Age := doc.age
                             Condition := doc.condition, Checked := doc.checked
                             DoctorID := doc.doctorId.getD target.DoctorID }

/-- The database once the store has carried out the update `$set {name,
specialty, salary}` with filter `_id = id` on `doctors`: the first matching
document gets the three values; without a match nothing changes (no upsert). -/
def Db.setDoctor (db : Db) (id : ObjectID) (name specialty : String) (salary : Float64) : Db :=
  let set := fun (x : DoctorDoc) =>
    { x with name := name, specialty := specialty, salary := salary }
  { db with doctors := updateFirst (fun x => decide (x._id = .oid id)) set db.doctors }

/-- The database once the store has carried out the update `$set {name, age,
condition, checked, doctorId}` with filter `_id = id` on `patients`. -/
def Db.setPatient (db : Db) (id : ObjectID) (name : String) (age : Float64)
    (condition : String) (checked : Bool) (doctorId : String) : Db :=
  let set := fun (x : PatientDoc) =>
    { x with name := name, age := age, condition := condition, checked := checked
             doctorId := some doctorId }
  { db with patients := updateFirst (fun x => decide (x._id = .oid id)) set db.patients }

/-- The database once the store has carried out the removal of the first
document of `doctors` with `_id = id`. -/
def Db.removeDoctor (db : Db) (id : ObjectID) : Db :=
  { db with doctors := db.doctors.eraseP (fun x => decide (x._id = .oid id)) }

/-- The database once the store has carried out the removal of the first
document of `patients` with `_id = id`. -/
def Db.removePatient (db : Db) (id : ObjectID) : Db :=
  { db with patients := db.patients.eraseP (fun x => decide (x._id = .oid id)) }

/-- Call `FindOneAndUpdate(...).Err()` on `doctors` with filter `_id = id` and
update `$set {name, specialty, salary}`: the first matching document gets the
three values; `ErrNoDocuments` when none matches (no upsert). A failed round
trip is another error, whether or not the store had carried the update out. -/
def FindOneAndUpdateDoctor (env : Env) (k : Nat) (id : ObjectID) (name specialty : String)
    (salary : Float64) (db : Db) : Option MongoError × Db :=
  let db1 := db.record (.updateDoctor id name specialty salary)
  match env.fault k with
  | some f =>
    (some (.other f.err), if f.applied then db1.setDoctor id name specialty salary else db1)
  | none =>
    if db.doctors.any (fun x => decide (x._id = .oid id)) then
      (none, db1.setDoctor id name specialty salary)
    else (some .ErrNoDocuments, db1)

/-- Call `FindOneAndUpdate(...).Err()` on `patients` with filter `_id = id`
and update `$set {name, age, condition, checked, doctorId}`. -/
def FindOneAndUpdatePatient (env : Env) (k : Nat) (id : ObjectID) (name : String)
    (age : Float64) (condition : String) (checked : Bool) (doctorId : String) (db : Db) :
    Option MongoError × Db :=
  let db1 := db.record (.updatePatient id name age condition checked doctorId)
  match env.fault k with
  | some f =>
    (some (.other f.err),
      if f.applied then db1.setPatient id name age condition checked doctorId else db1)
  | none =>
    if db.patients.any (fun x => decide (x._id = .oid id)) then
      (none, db1.setPatient id name age condition checked doctorId)
    else (some .ErrNoDocuments, db1)

/-- Call `DeleteOne` on `doctors` with filter `_id = id`: removes the first
matching document and reports the number removed (`DeletedCount`). A failed
round trip is an error, whether or not the store had carried the removal
out. -/
def DeleteOneDoctor (env : Env) (k : Nat) (id : ObjectID) (db : Db) : Except String Nat × Db :=
  let db1 := db.record (.deleteOne "doctors" id)
  match env.fault k with
  | some f => (.error f.err, if f.applied then db1.removeDoctor id else db1)
  | none =>
    if db.doctors.any (fun x => decide (x._id = .oid id)) then (.ok 1, db1.removeDoctor id)
    else (.ok 0, db1)

/-- Call `DeleteOne` on `patients` with filter `_id = id`. -/
def DeleteOnePatient (env : Env) (k : Nat) (id : ObjectID) (db : Db) : Except String Nat × Db :=
  let db1 := db.record (.deleteOne "patients" id)
  match env.fault k with
  | some f => (.error f.err, if f.applied then db1.removePatient id else db1)
  | none =>
    if db.patients.any (fun x => decide (x._id = .oid id)) then (.ok 1, db1.removePatient id)
    else (.ok 0, db1)

/-! ## Route handlers -/

/-- Handler of `GET /doctor`. -/
def getDoctor (env : Env) (db : Db) : Response × Db :=
  match FindDoctors env 0 db with
  | (.error err, db1) => (SendString 500 err, db1)
  | (.ok cursor, db1) =>
    match CursorAllDoctors env 1 cursor with
    | .error err => (SendString 500 err, db1)
    | .ok doctors => (⟨200, .doctors doctors⟩, db1)

/-- Handler of `POST /doctor`. -/
def postDoctor (env : Env) (body : RequestBody DoctorJSON) (db : Db) : Response × Db :=
  match BodyParserDoctor body with
  | .error err => (SendString 400 err, db)
  | .ok doctor =>
    let doctor := { doctor with ID := "" }
    match InsertOneDoctor env 0 doctor db with
    | (.error err, db1) => (SendString 500 err, db1)
    | (.ok insertedID, db1) =>
      match FindOneDoctor env 1 insertedID db1 with
      | (createdRecord, db2) =>
        let createdDoctor := DecodeDoctor createdRecord Doctor.zero
        (⟨201, .doctor createdDoctor⟩, db2)

/-- Handler of `PUT /doctor/:id`. -/
def putDoctor (env : Env) (idParam : String) (body : RequestBody DoctorJSON) (db : Db) :
    Response × Db :=
  match ObjectIDFromHex idParam with
  | none => (SendStatus 400, db)
  | some doctorID =>
    match BodyParserDoctor body with
    | .error err => (SendString 400 err, db)
    | .ok doctor =>
      match FindOneAndUpdateDoctor env 0 doctorID doctor.Name doctor.Specialty doctor.Salary db with
      | (some err, db1) =>
        if err = MongoError.ErrNoDocuments then (SendStatus 400, db1) else (SendStatus 500, db1)
      | (none, db1) => (⟨200, .doctor { doctor with ID := idParam }⟩, db1)

/-- Handler of `DELETE /doctor/:id`. -/
def deleteDoctor (env : Env) (idParam : String) (db : Db) : Response × Db :=
  match ObjectIDFromHex idParam with
  | none => (SendStatus 400, db)
  | some doctorID =>
    match DeleteOneDoctor env 0 doctorID db with
    | (.error _, db1) => (SendStatus 500, db1)
    | (.ok deletedCount, db1) =>
      if deletedCount < 1 then (SendStatus 404, db1)
      else (⟨200, .jsonString "record deleted"⟩, db1)

/-- Handler of `GET /patient`. -/
def getPatient (env : Env) (db : Db) : Response × Db :=
  match FindPatients env 0 db with
  | (.error err, db1) => (SendString 500 err, db1)
  | (.ok cursor, db1) =>
    match CursorAllPatients env 1 cursor with
    | .error err => (SendString 500 err, db1)
    | .ok patients => (⟨200, .patients patients⟩, db1)

/-- Handler of `POST /patient`. -/
def postPatient (env : Env) (body : RequestBody PatientJSON) (db : Db) : Response × Db :=
  match BodyParserPatient body with
  | .error err => (SendString 400 err, db)
  | .ok patient =>
    let patient := { patient with ID := "" }
    match InsertOnePatient env 0 patient db with
    | (.error err, db1) => (SendString 500 err, db1)
    | (.ok insertedID, db1) =>
      match FindOnePatient env 1 insertedID db1 with
      | (createdRecord, db2) =>
        let createdPatient := DecodePatient createdRecord Patient.zero
        (⟨201, .patient createdPatient⟩, db2)

/-- Handler of `PUT /patient/:id`. -/
def putPatient (env : Env) (idParam : String) (body : RequestBody PatientJSON) (db : Db) :
    Response × Db :=
  match ObjectIDFromHex idParam with
  | none => (SendStatus 400, db)
  | some patientID =>
    match BodyParserPatient body with
    | .error err => (SendString 400 err, db)
    | .ok patient =>
      match FindOneAndUpdatePatient env 0 patientID patient.Name patient.Age patient.Condition
          patient.Checked patient.DoctorID db with
      | (some err, db1) =>
        if err = MongoError.ErrNoDocuments then (SendStatus 400, db1) else (SendStatus 500, db1)
      | (none, db1) => (⟨200, .patient { patient with ID := idParam }⟩, db1)

/-- Handler of `DELETE /patient/:id`. -/
def deletePatient (env : Env) (idParam : String) (db : Db) : Response × Db :=
  match ObjectIDFromHex idParam with
  | none => (SendStatus 400, db)
  | some patientID =>
    match DeleteOnePatient env 0 patientID db with
    | (.error _, db1) => (SendStatus 500, db1)
    | (.ok deletedCount, db1) =>
      if deletedCount < 1 then (SendStatus 404, db1)
      else (⟨200, .jsonString "record deleted"⟩, db1)

/-! ## Concrete stores and requests, for evaluation -/

/-- The identifier `000000000000000000000001`. -/
def oid1 : ObjectID := ⟨[0, 0, 0, 0, 0, 0, 0, 0, 0, 0, 0, 1], rfl⟩

/-- The identifier `000000000000000000000002`. -/
def oid2 : ObjectID := ⟨[0, 0, 0, 0, 0, 0, 0, 0, 0, 0, 0, 2], rfl⟩

/-- A store whose round trips all succeed; the driver generates `oid`. -/
def Env.working (oid : ObjectID) : Env := ⟨oid, fun _ => none⟩

/-- A store whose round trip number `k` fails with `err` before the operation
is carried out, the others succeeding; the driver generates `oid`. -/
def Env.failingAt (oid : ObjectID) (k : Nat) (err : String) : Env :=
  ⟨oid, fun i => if i = k then some ⟨err, false⟩ else none⟩

/-- A store whose round trip number `k` is carried out and then fails with
`err` (the acknowledgement is lost), the others succeeding; the driver
generates `oid`. -/
def Env.failingAfter (oid : ObjectID) (k : Nat) (err : String) : Env :=
  ⟨oid, fun i => if i = k then some ⟨err, true⟩ else none⟩

/-- The empty database. -/
def Db.empty : Db := ⟨[], [], []⟩

/-- The document `POST /doctor` stores for a parsed body. -/
def DoctorJSON.stored (j : DoctorJSON) (generated : ObjectID) : DoctorDoc :=
  ⟨.oid generated, j.decode.Name, j.decode.Specialty, j.decode.Salary⟩

/-- The document `POST /patient` stores for a parsed body. -/
def PatientJSON.stored (j : PatientJSON) (generated : ObjectID) : PatientDoc :=
  ⟨.oid generated, j.decode.Name, j.decode.Age, j.decode.Condition, j.decode.Checked,
    if j.decode.DoctorID = "" then none else some j.decode.DoctorID⟩

/-- A collection `doctors` holding one document, with identifier `oid2`. -/
def Db.oneDoctor : Db := ⟨[⟨.oid oid2, "A", "X", ⟨100⟩⟩], [], []⟩

/-- A collection `patients` holding one document, with identifier `oid2`. -/
def Db.onePatient : Db := ⟨[], [⟨.oid oid2, "P", ⟨30⟩, "flu", false, none⟩], []⟩

/-- A collection `doctors` holding two documents, `oid1` then `oid2`. -/
def Db.twoDoctors : Db :=
  ⟨[⟨.oid oid1, "A", "X", ⟨100⟩⟩, ⟨.oid oid2, "B", "Y", ⟨150⟩⟩], [], []⟩

/-- A text without upper-case hexadecimal letters `A`–`F`: the form in which
`ObjectID.Hex` renders an identifier. -/
def noUpperHex (s : String) : Prop :=
  ∀ c ∈ s.data, ¬ (65 ≤ c.toNat ∧ c.toNat ≤ 70)

/-- The key discipline of a collection written by this service: every `_id`
is an object identifier (an insert always carries an empty `ID`), and no two
documents share an `_id` (the unique `_id` index). -/
def ObjectIdKeyed (ids : List BsonId) : Prop :=
  ids.Nodup ∧ ∀ i ∈ ids, i.isOid = true

instance (s : String) : Decidable (isHex24 s) := by
  unfold isHex24
  infer_instance

instance (s : String) : Decidable (noUpperHex s) := by
  unfold noUpperHex
  infer_instance

instance (ids : List BsonId) : Decidable (ObjectIdKeyed ids) := by
  unfold ObjectIdKeyed
  infer_instance

theorem fromHexChar_lt (c : Char) (n : Nat) (h : fromHexChar c = some n) : n < 16 := by
  unfold fromHexChar at h
  simp only at h
  split_ifs at h <;> simp at h <;> omega

theorem utf8Size_of_hex (c : Char) (h : (fromHexChar c).isSome = true) : c.utf8Size = 1 := by
  have hn : c.toNat ≤ 127 := by
    unfold fromHexChar at h
    simp only at h
    split_ifs at h <;> simp at h <;> omega
  unfold Char.utf8Size
  have : c.val ≤ 127 := by
    rw [UInt32.le_def]
    exact hn
  simp [this]

theorem utf8Len_of_hex (cs : List Char) (h : ∀ c ∈ cs, (fromHexChar c).isSome = true) :
    String.utf8Len cs = cs.length := by
  induction cs with
  | nil => rfl
  | cons c cs ih =>
    simp only [String.utf8Len_cons, List.length_cons]
    rw [ih (fun d hd => h d (List.mem_cons_of_mem _ hd)), utf8Size_of_hex c (h c (List.mem_cons_self _ _))]

theorem hexDecode_cons_cons (a b : Char) (rest : List Char) (bs : List (Fin 256))
    (h : hexDecode (a :: b :: rest) = some bs) :
    ∃ hi lo bs1, fromHexChar a = some hi ∧ fromHexChar b = some lo ∧
      hexDecode rest = some bs1 ∧ bs = Fin.ofNat (hi * 16 + lo) :: bs1 := by
  rw [hexDecode] at h
  cases ha : fromHexChar a with
  | none => simp [ha] at h
  | some hi =>
    cases hb : fromHexChar b with
    | none => simp [ha, hb] at h
    | some lo =>
      cases hr : hexDecode rest with
      | none => simp [ha, hb, hr] at h
      | some bs1 =>
        simp [ha, hb, hr] at h
        exact ⟨hi, lo, bs1, rfl, rfl, rfl, h.symm⟩

theorem hexDecode_some (bs : List (Fin 256)) :
    ∀ cs, hexDecode cs = some bs →
      cs.length = 2 * bs.length ∧ ∀ c ∈ cs, (fromHexChar c).isSome = true := by
  induction bs with
  | nil =>
    intro cs h
    match cs, h with
    | [], _ => simp
    | [_], h => simp [hexDecode] at h
    | a :: b :: rest, h =>
      obtain ⟨hi, lo, bs1, -, -, -, h4⟩ := hexDecode_cons_cons a b rest [] h
      simp at h4
  | cons x xs ih =>
    intro cs h
    match cs, h with
    | [], h => simp [hexDecode] at h
    | [_], h => simp [hexDecode] at h
    | a :: b :: rest, h =>
      obtain ⟨hi, lo, bs1, ha, hb, hr, h4⟩ := hexDecode_cons_cons a b rest (x :: xs) h
      simp only [List.cons.injEq] at h4
      obtain ⟨-, rfl⟩ := h4
      obtain ⟨h1, h2⟩ := ih rest hr
      refine ⟨by simp only [List.length_cons, h1]; omega, ?_⟩
      intro c hc
      simp only [List.mem_cons] at hc
      rcases hc with rfl | rfl | hc
      · simp [ha]
      · simp [hb]
      · exact h2 c hc

theorem hexDecode_of_hex (n : Nat) :
    ∀ cs : List Char, cs.length = 2 * n → (∀ c ∈ cs, (fromHexChar c).isSome = true) →
      ∃ bs, hexDecode cs = some bs ∧ bs.length = n := by
  induction n with
  | zero =>
    intro cs hn _
    have : cs = [] := List.length_eq_zero.mp (by omega)
    subst this
    exact ⟨[], rfl, rfl⟩
  | succ n ih =>
    intro cs hn hall
    match cs, hn, hall with
    | [], hn, _ => simp at hn
    | [_], hn, _ => simp at hn; omega
    | a :: b :: rest, hn, hall =>
      have hlen : rest.length = 2 * n := by simp only [List.length_cons] at hn; omega
      obtain ⟨bs, hbs, hl⟩ := ih rest hlen
        (fun c hc => hall c (List.mem_cons_of_mem _ (List.mem_cons_of_mem _ hc)))
      have ha := hall a (List.mem_cons_self _ _)
      have hb := hall b (List.mem_cons_of_mem _ (List.mem_cons_self _ _))
      obtain ⟨hi, hhi⟩ := Option.isSome_iff_exists.mp ha
      obtain ⟨lo, hlo⟩ := Option.isSome_iff_exists.mp hb
      refine ⟨Fin.ofNat (hi * 16 + lo) :: bs, ?_, ?_⟩
      · rw [hexDecode]; simp [hhi, hlo, hbs]
      · simp [hl]

theorem hexDigit_roundtrip : ∀ n : Fin 16, fromHexChar (hextable.getD n.val '0') = some n.val := by
  decide

theorem hexDigits_roundtrip (b : Fin 256) :
    fromHexChar (hextable.getD (b.val / 16) '0') = some (b.val / 16) ∧
    fromHexChar (hextable.getD (b.val % 16) '0') = some (b.val % 16) := by
  have h1 : b.val / 16 < 16 := by have := b.isLt; omega
  have h2 : b.val % 16 < 16 := by omega
  exact ⟨hexDigit_roundtrip ⟨_, h1⟩, hexDigit_roundtrip ⟨_, h2⟩⟩

theorem hexDecode_hexEncode (bs : List (Fin 256)) : hexDecode (hexEncode bs) = some bs := by
  induction bs with
  | nil => rfl
  | cons b bs ih =>
    obtain ⟨h1, h2⟩ := hexDigits_roundtrip b
    rw [hexEncode, hexDecode, h1, h2, ih]
    simp only [Option.some.injEq, List.cons.injEq, and_true]
    apply Fin.ext
    simp only [Fin.ofNat, Fin.val_mk]
    omega

theorem hexEncode_length (bs : List (Fin 256)) : (hexEncode bs).length = 2 * bs.length := by
  induction bs with
  | nil => rfl
  | cons b bs ih => simp [hexEncode, ih]; omega

/-- An identifier is accepted by `ObjectIDFromHex` exactly when it is 24
hexadecimal digits. -/
theorem ObjectIDFromHex_isSome_iff (s : String) :
    (ObjectIDFromHex s).isSome = true ↔ isHex24 s := by
  unfold ObjectIDFromHex isHex24
  constructor
  · intro h
    split_ifs at h with h24
    · simp at h
    · cases hd : hexDecode s.data with
      | none => simp [hd] at h
      | some bs =>
        simp only [hd] at h
        split_ifs at h with h12
        · obtain ⟨hl, hall⟩ := hexDecode_some bs s.data hd
          refine ⟨?_, hall⟩
          show s.data.length = 24
          omega
        · simp at h
  · rintro ⟨hl, hall⟩
    have hsz : s.utf8ByteSize = 24 := by
      have := utf8Len_of_hex s.data hall
      show String.utf8Len s.data = 24
      rw [this]; exact hl
    obtain ⟨bs, hbs, hl12⟩ := hexDecode_of_hex 12 s.data hl hall
    simp [hsz, hbs, hl12]

/-- The text form of an identifier parses back to that identifier. -/
theorem ObjectIDFromHex_Hex (o : ObjectID) : ObjectIDFromHex o.Hex = some o := by
  have hall : ∀ c ∈ hexEncode o.bytes, (fromHexChar c).isSome = true :=
    (hexDecode_some _ _ (hexDecode_hexEncode o.bytes)).2
  have hsz : (String.mk (hexEncode o.bytes)).utf8ByteSize = 24 := by
    show String.utf8Len (hexEncode o.bytes) = 24
    rw [utf8Len_of_hex _ hall, hexEncode_length, o.size]
  unfold ObjectIDFromHex ObjectID.Hex
  simp [hsz, hexDecode_hexEncode, o.size]

theorem hextable_ofNat : ∀ k : Fin 103,
    (48 ≤ k.val ∧ k.val ≤ 57 → hextable.getD (k.val - 48) '0' = Char.ofNat k.val) ∧
    (97 ≤ k.val → hextable.getD (k.val - 97 + 10) '0' = Char.ofNat k.val) := by
  decide

theorem hextable_of_fromHexChar (c : Char) (n : Nat) (h : fromHexChar c = some n)
    (hl : ¬ (65 ≤ c.toNat ∧ c.toNat ≤ 70)) : hextable.getD n '0' = c := by
  have hc : Char.ofNat c.toNat = c := Char.ofNat_toNat c
  unfold fromHexChar at h
  simp only at h
  split_ifs at h with h1 h2
  · simp only [Option.some.injEq] at h
    subst h
    have := (hextable_ofNat ⟨c.toNat, by omega⟩).1 h1
    rw [← hc]
    simpa using this
  · simp only [Option.some.injEq] at h
    subst h
    have := (hextable_ofNat ⟨c.toNat, by omega⟩).2 h2.1
    rw [← hc]
    simpa using this

theorem hexEncode_hexDecode (bs : List (Fin 256)) :
    ∀ cs, hexDecode cs = some bs → (∀ c ∈ cs, ¬ (65 ≤ c.toNat ∧ c.toNat ≤ 70)) →
      hexEncode bs = cs := by
  induction bs with
  | nil =>
    intro cs h _
    have := (hexDecode_some [] cs h).1
    exact (List.length_eq_zero.mp (by simpa using this)).symm
  | cons x xs ih =>
    intro cs h hlow
    match cs, h, hlow with
    | [], h, _ => simp [hexDecode] at h
    | [_], h, _ => simp [hexDecode] at h
    | a :: b :: rest, h, hlow =>
      obtain ⟨hi, lo, bs1, ha, hb, hr, h4⟩ := hexDecode_cons_cons a b rest (x :: xs) h
      simp only [List.cons.injEq] at h4
      obtain ⟨hx, rfl⟩ := h4
      have hhi := fromHexChar_lt a hi ha
      have hlo := fromHexChar_lt b lo hb
      have hval : x.val = hi * 16 + lo := by
        rw [hx]
        simp only [Fin.ofNat, Fin.val_mk]
        omega
      have h1 : x.val / 16 = hi := by omega
      have h2 : x.val % 16 = lo := by omega
      rw [hexEncode, h1, h2,
        hextable_of_fromHexChar a hi ha (hlow a (List.mem_cons_self _ _)),
        hextable_of_fromHexChar b lo hb
          (hlow b (List.mem_cons_of_mem _ (List.mem_cons_self _ _))),
        ih rest hr (fun c hc => hlow c (List.mem_cons_of_mem _ (List.mem_cons_of_mem _ hc)))]

/-- An identifier written without upper-case digits is the text form of the
identifier it parses to. -/
theorem Hex_of_ObjectIDFromHex (s : String) (o : ObjectID) (h : ObjectIDFromHex s = some o)
    (hlow : noUpperHex s) : o.Hex = s := by
  unfold ObjectIDFromHex at h
  split_ifs at h with h24
  cases hd : hexDecode s.data with
  | none => simp [hd] at h
  | some bs =>
    simp only [hd] at h
    split_ifs at h with h12
    simp only [Option.some.injEq] at h
    subst h
    show String.mk (hexEncode bs) = s
    rw [hexEncode_hexDecode bs s.data hd hlow]

theorem Hex_ne_empty (o : ObjectID) : o.Hex ≠ "" := by
  intro h
  have h1 : (hexEncode o.bytes).length = 0 := by
    have : o.Hex.data = [] := by rw [h]
    show o.Hex.data.length = 0
    rw [this]; rfl
  rw [hexEncode_length, o.size] at h1
  omega

/-! ## The outcome of each handler, case by case -/

theorem any_id_eq_true {α : Type} (key : α → BsonId) (id : BsonId) (l : List α) :
    l.any (fun x => decide (key x = id)) = true ↔ ∃ d ∈ l, key d = id := by
  simp [List.any_eq_true]

theorem any_id_eq_false {α : Type} (key : α → BsonId) (id : BsonId) (l : List α) :
    l.any (fun x => decide (key x = id)) = false ↔ ∀ d ∈ l, key d ≠ id := by
  simp [List.any_eq_false]

theorem deleteDoctor_malformed (env : Env) (idParam : String) (db : Db)
    (h : ObjectIDFromHex idParam = none) :
    deleteDoctor env idParam db = (SendStatus 400, db) := by
  simp [deleteDoctor, h]

theorem deleteDoctor_fault (env : Env) (idParam : String) (db : Db) (oid : ObjectID) (f : Fault)
    (h : ObjectIDFromHex idParam = some oid) (hf : env.fault 0 = some f) :
    deleteDoctor env idParam db =
      (SendStatus 500,
       if f.applied = true then (db.record (.deleteOne "doctors" oid)).removeDoctor oid
       else db.record (.deleteOne "doctors" oid)) := by
  simp [deleteDoctor, DeleteOneDoctor, h, hf]

theorem deleteDoctor_absent (env : Env) (idParam : String) (db : Db) (oid : ObjectID)
    (h : ObjectIDFromHex idParam = some oid) (hf : env.fault 0 = none)
    (ha : ∀ d ∈ db.doctors, d._id ≠ .oid oid) :
    deleteDoctor env idParam db = (SendStatus 404, db.record (.deleteOne "doctors" oid)) := by
  have := (any_id_eq_false DoctorDoc._id (.oid oid) db.doctors).mpr ha
  simp [deleteDoctor, DeleteOneDoctor, h, hf, this, Db.removeDoctor, Db.record]

theorem deleteDoctor_present (env : Env) (idParam : String) (db : Db) (oid : ObjectID)
    (h : ObjectIDFromHex idParam = some oid) (hf : env.fault 0 = none)
    (hp : ∃ d ∈ db.doctors, d._id = .oid oid) :
    deleteDoctor env idParam db =
      (⟨200, .jsonString "record deleted"⟩,
       { db.record (.deleteOne "doctors" oid) with
         doctors := db.doctors.eraseP (fun x => decide (x._id = .oid oid)) }) := by
  have := (any_id_eq_true DoctorDoc._id (.oid oid) db.doctors).mpr hp
  simp [deleteDoctor, DeleteOneDoctor, h, hf, this, Db.removeDoctor, Db.record]

theorem deletePatient_malformed (env : Env) (idParam : String) (db : Db)
    (h : ObjectIDFromHex idParam = none) :
    deletePatient env idParam db = (SendStatus 400, db) := by
  simp [deletePatient, h]

theorem deletePatient_fault (env : Env) (idParam : String) (db : Db) (oid : ObjectID) (f : Fault)
    (h : ObjectIDFromHex idParam = some oid) (hf : env.fault 0 = some f) :
    deletePatient env idParam db =
      (SendStatus 500,
       if f.applied = true then (db.record (.deleteOne "patients" oid)).removePatient oid
       else db.record (.deleteOne "patients" oid)) := by
  simp [deletePatient, DeleteOnePatient, h, hf]

theorem deletePatient_absent (env : Env) (idParam : String) (db : Db) (oid : ObjectID)
    (h : ObjectIDFromHex idParam = some oid) (hf : env.fault 0 = none)
    (ha : ∀ d ∈ db.patients, d._id ≠ .oid oid) :
    deletePatient env idParam db = (SendStatus 404, db.record (.deleteOne "patients" oid)) := by
  have := (any_id_eq_false PatientDoc._id (.oid oid) db.patients).mpr ha
  simp [deletePatient, DeleteOnePatient, h, hf, this, Db.removePatient, Db.record]

theorem deletePatient_present (env : Env) (idParam : String) (db : Db) (oid : ObjectID)
    (h : ObjectIDFromHex idParam = some oid) (hf : env.fault 0 = none)
    (hp : ∃ d ∈ db.patients, d._id = .oid oid) :
    deletePatient env idParam db =
      (⟨200, .jsonString "record deleted"⟩,
       { db.record (.deleteOne "patients" oid) with
         patients := db.patients.eraseP (fun x => decide (x._id = .oid oid)) }) := by
  have := (any_id_eq_true PatientDoc._id (.oid oid) db.patients).mpr hp
  simp [deletePatient, DeleteOnePatient, h, hf, this, Db.removePatient, Db.record]

theorem ObjectIDFromHex_eq_none_iff (s : String) : ObjectIDFromHex s = none ↔ ¬ isHex24 s := by
  rw [← ObjectIDFromHex_isSome_iff]
  cases ObjectIDFromHex s <;> simp

theorem ObjectIDFromHex_of_isHex24 (s : String) (h : isHex24 s) :
    ∃ oid, ObjectIDFromHex s = some oid :=
  Option.isSome_iff_exists.mp ((ObjectIDFromHex_isSome_iff s).mpr h)

theorem updateFirst_decompose {α : Type} (p : α → Bool) (f : α → α) (l : List α)
    (h : ∃ d ∈ l, p d = true) :
    ∃ pre d post, l = pre ++ d :: post ∧ p d = true ∧ (∀ x ∈ pre, p x = false) ∧
      updateFirst p f l = pre ++ f d :: post := by
  induction l with
  | nil => simp at h
  | cons x xs ih =>
    by_cases hx : p x = true
    · exact ⟨[], x, xs, rfl, hx, by simp, by simp [updateFirst, hx]⟩
    · have hxs : ∃ d ∈ xs, p d = true := by
        obtain ⟨d, hd, hpd⟩ := h
        rcases List.mem_cons.mp hd with rfl | hd
        · exact absurd hpd hx
        · exact ⟨d, hd, hpd⟩
      obtain ⟨pre, d, post, h1, h2, h3, h4⟩ := ih hxs
      refine ⟨x :: pre, d, post, by simp [h1], h2, ?_, by simp [updateFirst, hx, h4]⟩
      intro y hy
      rcases List.mem_cons.mp hy with rfl | hy
      · simpa using hx
      · exact h3 y hy

theorem putDoctor_malformed_id (env : Env) (idParam : String) (body : RequestBody DoctorJSON)
    (db : Db) (h : ObjectIDFromHex idParam = none) :
    putDoctor env idParam body db = (SendStatus 400, db) := by
  simp [putDoctor, h]

theorem putDoctor_malformed_body (env : Env) (idParam : String) (err : String) (db : Db)
    (oid : ObjectID) (h : ObjectIDFromHex idParam = some oid) :
    putDoctor env idParam (.unparsable err) db = (SendString 400 err, db) := by
  simp [putDoctor, h, BodyParserDoctor]

theorem putDoctor_fault (env : Env) (idParam : String) (j : DoctorJSON) (db : Db)
    (oid : ObjectID) (f : Fault) (h : ObjectIDFromHex idParam = some oid)
    (hf : env.fault 0 = some f) :
    putDoctor env idParam (.object j) db =
      (SendStatus 500,
       if f.applied = true then
         (db.record (.updateDoctor oid j.decode.Name j.decode.Specialty j.decode.Salary)).setDoctor
           oid j.decode.Name j.decode.Specialty j.decode.Salary
       else db.record (.updateDoctor oid j.decode.Name j.decode.Specialty j.decode.Salary)) := by
  simp [putDoctor, h, BodyParserDoctor, FindOneAndUpdateDoctor, hf]

theorem putDoctor_absent (env : Env) (idParam : String) (j : DoctorJSON) (db : Db)
    (oid : ObjectID) (h : ObjectIDFromHex idParam = some oid) (hf : env.fault 0 = none)
    (ha : ∀ d ∈ db.doctors, d._id ≠ .oid oid) :
    putDoctor env idParam (.object j) db =
      (SendStatus 400,
       db.record (.updateDoctor oid j.decode.Name j.decode.Specialty j.decode.Salary)) := by
  have := (any_id_eq_false DoctorDoc._id (.oid oid) db.doctors).mpr ha
  simp [putDoctor, h, BodyParserDoctor, FindOneAndUpdateDoctor, hf, this, Db.setDoctor, Db.record]

theorem putDoctor_present (env : Env) (idParam : String) (j : DoctorJSON) (db : Db)
    (oid : ObjectID) (h : ObjectIDFromHex idParam = some oid) (hf : env.fault 0 = none)
    (hp : ∃ d ∈ db.doctors, d._id = .oid oid) :
    putDoctor env idParam (.object j) db =
      (⟨200, .doctor { j.decode with ID := idParam }⟩,
       { db.record (.updateDoctor oid j.decode.Name j.decode.Specialty j.decode.Salary) with
         doctors := updateFirst (fun x => decide (x._id = .oid oid))
           (fun x => { x with name := j.decode.Name, specialty := j.decode.Specialty
                              salary := j.decode.Salary }) db.doctors }) := by
  have := (any_id_eq_true DoctorDoc._id (.oid oid) db.doctors).mpr hp
  simp [putDoctor, h, BodyParserDoctor, FindOneAndUpdateDoctor, hf, this, Db.setDoctor, Db.record]

theorem putPatient_malformed_id (env : Env) (idParam : String) (body : RequestBody PatientJSON)
    (db : Db) (h : ObjectIDFromHex idParam = none) :
    putPatient env idParam body db = (SendStatus 400, db) := by
  simp [putPatient, h]

theorem putPatient_malformed_body (env : Env) (idParam : String) (err : String) (db : Db)
    (oid : ObjectID) (h : ObjectIDFromHex idParam = some oid) :
    putPatient env idParam (.unparsable err) db = (SendString 400 err, db) := by
  simp [putPatient, h, BodyParserPatient]

theorem putPatient_fault (env : Env) (idParam : String) (j : PatientJSON) (db : Db)
    (oid : ObjectID) (f : Fault) (h : ObjectIDFromHex idParam = some oid)
    (hf : env.fault 0 = some f) :
    putPatient env idParam (.object j) db =
      (SendStatus 500,
       if f.applied = true then
         (db.record (.updatePatient oid j.decode.Name j.decode.Age j.decode.Condition
           j.decode.Checked j.decode.DoctorID)).setPatient oid j.decode.Name j.decode.Age
           j.decode.Condition j.decode.Checked j.decode.DoctorID
       else db.record (.updatePatient oid j.decode.Name j.decode.Age j.decode.Condition
         j.decode.Checked j.decode.DoctorID)) := by
  simp [putPatient, h, BodyParserPatient, FindOneAndUpdatePatient, hf]

theorem putPatient_absent (env : Env) (idParam : String) (j : PatientJSON) (db : Db)
    (oid : ObjectID) (h : ObjectIDFromHex idParam = some oid) (hf : env.fault 0 = none)
    (ha : ∀ d ∈ db.patients, d._id ≠ .oid oid) :
    putPatient env idParam (.object j) db =
      (SendStatus 400,
       db.record (.updatePatient oid j.decode.Name j.decode.Age j.decode.Condition
         j.decode.Checked j.decode.DoctorID)) := by
  have := (any_id_eq_false PatientDoc._id (.oid oid) db.patients).mpr ha
  simp [putPatient, h, BodyParserPatient, FindOneAndUpdatePatient, hf, this, Db.setPatient,
    Db.record]

theorem putPatient_present (env : Env) (idParam : String) (j : PatientJSON) (db : Db)
    (oid : ObjectID) (h : ObjectIDFromHex idParam = some oid) (hf : env.fault 0 = none)
    (hp : ∃ d ∈ db.patients, d._id = .oid oid) :
    putPatient env idParam (.object j) db =
      (⟨200, .patient { j.decode with ID := idParam }⟩,
       { db.record (.updatePatient oid j.decode.Name j.decode.Age j.decode.Condition
           j.decode.Checked j.decode.DoctorID) with
         patients := updateFirst (fun x => decide (x._id = .oid oid))
           (fun x => { x with name := j.decode.Name, age := j.decode.Age
                              condition := j.decode.Condition, checked := j.decode.Checked
                              doctorId := some j.decode.DoctorID }) db.patients }) := by
  have := (any_id_eq_true PatientDoc._id (.oid oid) db.patients).mpr hp
  simp [putPatient, h, BodyParserPatient, FindOneAndUpdatePatient, hf, this, Db.setPatient,
    Db.record]

theorem find?_append_fresh {α : Type} (p : α → Bool) (l : List α) (x : α)
    (hl : ∀ d ∈ l, p d = false) (hx : p x = true) : (l ++ [x]).find? p = some x := by
  induction l with
  | nil => simp [List.find?, hx]
  | cons y ys ih =>
    have hy : p y = false := hl y (List.mem_cons_self _ _)
    simp only [List.cons_append, List.find?, hy]
    exact ih (fun d hd => hl d (List.mem_cons_of_mem _ hd))

theorem postDoctor_unparsable (env : Env) (err : String) (db : Db) :
    postDoctor env (.unparsable err) db = (SendString 400 err, db) := by
  simp [postDoctor, BodyParserDoctor]

theorem postDoctor_insert_fault (env : Env) (j : DoctorJSON) (db : Db) (f : Fault)
    (hf : env.fault 0 = some f) :
    postDoctor env (.object j) db =
      (SendString 500 f.err,
       if f.applied = true then
         (db.record (.insertDoctor { j.decode with ID := "" })).insertDoctor
           (j.stored env.newObjectID)
       else db.record (.insertDoctor { j.decode with ID := "" })) := by
  simp [postDoctor, BodyParserDoctor, InsertOneDoctor, hf, Doctor.marshal, DoctorJSON.stored]

theorem postDoctor_duplicate (env : Env) (j : DoctorJSON) (db : Db)
    (hf : env.fault 0 = none) (hd : ∃ d ∈ db.doctors, d._id = .oid env.newObjectID) :
    postDoctor env (.object j) db =
      (SendString 500 "E11000 duplicate key error",
       db.record (.insertDoctor { j.decode with ID := "" })) := by
  have := (any_id_eq_true DoctorDoc._id (.oid env.newObjectID) db.doctors).mpr hd
  simp [postDoctor, BodyParserDoctor, InsertOneDoctor, hf, Doctor.marshal, this, Db.record]

theorem postDoctor_readback_fault (env : Env) (j : DoctorJSON) (db : Db) (f : Fault)
    (hf : env.fault 0 = none) (hn : ∀ d ∈ db.doctors, d._id ≠ .oid env.newObjectID)
    (hr : env.fault 1 = some f) :
    postDoctor env (.object j) db =
      (⟨201, .doctor Doctor.zero⟩,
       { doctors := db.doctors ++ [j.stored env.newObjectID]
         patients := db.patients
         log := db.log ++ [.insertDoctor { j.decode with ID := "" },
                           .findOne "doctors" (.oid env.newObjectID)] }) := by
  have := (any_id_eq_false DoctorDoc._id (.oid env.newObjectID) db.doctors).mpr hn
  simp [postDoctor, BodyParserDoctor, InsertOneDoctor, hf, Doctor.marshal, this, FindOneDoctor,
    hr, DecodeDoctor, Db.record, DoctorJSON.stored, Db.insertDoctor]

theorem postDoctor_created (env : Env) (j : DoctorJSON) (db : Db)
    (hf : env.fault 0 = none) (hn : ∀ d ∈ db.doctors, d._id ≠ .oid env.newObjectID)
    (hr : env.fault 1 = none) :
    postDoctor env (.object j) db =
      (⟨201, .doctor { j.decode with ID := env.newObjectID.Hex }⟩,
       { doctors := db.doctors ++ [j.stored env.newObjectID]
         patients := db.patients
         log := db.log ++ [.insertDoctor { j.decode with ID := "" },
                           .findOne "doctors" (.oid env.newObjectID)] }) := by
  have hany := (any_id_eq_false DoctorDoc._id (.oid env.newObjectID) db.doctors).mpr hn
  have hfind : (db.doctors ++ [j.stored env.newObjectID]).find?
      (fun x => decide (x._id = .oid env.newObjectID)) = some (j.stored env.newObjectID) :=
    find?_append_fresh _ _ _ (fun d hd => by simpa using hn d hd) (by simp [DoctorJSON.stored])
  simp only [DoctorJSON.stored] at hfind
  simp [postDoctor, BodyParserDoctor, InsertOneDoctor, hf, Doctor.marshal, hany, FindOneDoctor,
    hr, DecodeDoctor, Db.record, DoctorJSON.stored, hfind, BsonId.decode, Db.insertDoctor]

theorem postPatient_unparsable (env : Env) (err : String) (db : Db) :
    postPatient env (.unparsable err) db = (SendString 400 err, db) := by
  simp [postPatient, BodyParserPatient]

theorem postPatient_insert_fault (env : Env) (j : PatientJSON) (db : Db) (f : Fault)
    (hf : env.fault 0 = some f) :
    postPatient env (.object j) db =
      (SendString 500 f.err,
       if f.applied = true then
         (db.record (.insertPatient { j.decode with ID := "" })).insertPatient
           (j.stored env.newObjectID)
       else db.record (.insertPatient { j.decode with ID := "" })) := by
  simp [postPatient, BodyParserPatient, InsertOnePatient, hf, Patient.marshal, PatientJSON.stored]

theorem postPatient_duplicate (env : Env) (j : PatientJSON) (db : Db)
    (hf : env.fault 0 = none) (hd : ∃ d ∈ db.patients, d._id = .oid env.newObjectID) :
    postPatient env (.object j) db =
      (SendString 500 "E11000 duplicate key error",
       db.record (.insertPatient { j.decode with ID := "" })) := by
  have := (any_id_eq_true PatientDoc._id (.oid env.newObjectID) db.patients).mpr hd
  simp [postPatient, BodyParserPatient, InsertOnePatient, hf, Patient.marshal, this, Db.record]

theorem postPatient_readback_fault (env : Env) (j : PatientJSON) (db : Db) (f : Fault)
    (hf : env.fault 0 = none) (hn : ∀ d ∈ db.patients, d._id ≠ .oid env.newObjectID)
    (hr : env.fault 1 = some f) :
    postPatient env (.object j) db =
      (⟨201, .patient Patient.zero⟩,
       { doctors := db.doctors
         patients := db.patients ++ [j.stored env.newObjectID]
         log := db.log ++ [.insertPatient { j.decode with ID := "" },
                           .findOne "patients" (.oid env.newObjectID)] }) := by
  have := (any_id_eq_false PatientDoc._id (.oid env.newObjectID) db.patients).mpr hn
  simp [postPatient, BodyParserPatient, InsertOnePatient, hf, Patient.marshal, this,
    FindOnePatient, hr, DecodePatient, Db.record, PatientJSON.stored, Db.insertPatient]

theorem postPatient_created (env : Env) (j : PatientJSON) (db : Db)
    (hf : env.fault 0 = none) (hn : ∀ d ∈ db.patients, d._id ≠ .oid env.newObjectID)
    (hr : env.fault 1 = none) :
    postPatient env (.object j) db =
      (⟨201, .patient { j.decode with ID := env.newObjectID.Hex }⟩,
       { doctors := db.doctors
         patients := db.patients ++ [j.stored env.newObjectID]
         log := db.log ++ [.insertPatient { j.decode with ID := "" },
                           .findOne "patients" (.oid env.newObjectID)] }) := by
  have hany := (any_id_eq_false PatientDoc._id (.oid env.newObjectID) db.patients).mpr hn
  have hfind : (db.patients ++ [j.stored env.newObjectID]).find?
      (fun x => decide (x._id = .oid env.newObjectID)) = some (j.stored env.newObjectID) :=
    find?_append_fresh _ _ _ (fun d hd => by simpa using hn d hd) (by simp [PatientJSON.stored])
  simp only [PatientJSON.stored] at hfind
  simp [postPatient, BodyParserPatient, InsertOnePatient, hf, Patient.marshal, hany,
    FindOnePatient, hr, DecodePatient, Db.record, PatientJSON.stored, hfind, BsonId.decode,
    Db.insertPatient]
  by_cases h : j.decode.DoctorID = "" <;> simp [h, Patient.zero]

theorem getDoctor_working (env : Env) (db : Db) (h0 : env.fault 0 = none)
    (h1 : env.fault 1 = none) :
    getDoctor env db =
      (⟨200, .doctors (db.doctors.map DoctorDoc.decode)⟩, db.record (.find "doctors")) := by
  simp [getDoctor, FindDoctors, CursorAllDoctors, h0, h1]

theorem getPatient_working (env : Env) (db : Db) (h0 : env.fault 0 = none)
    (h1 : env.fault 1 = none) :
    getPatient env db =
      (⟨200, .patients (db.patients.map PatientDoc.decode)⟩, db.record (.find "patients")) := by
  simp [getPatient, FindPatients, CursorAllPatients, h0, h1]

theorem Hex_injective (a b : ObjectID) (h : a.Hex = b.Hex) : a = b := by
  have ha := ObjectIDFromHex_Hex a
  rw [h, ObjectIDFromHex_Hex b] at ha
  exact (Option.some.inj ha).symm

theorem eraseP_eq_filter_of_nodup {α : Type} (key : α → BsonId) (k : BsonId) (l : List α)
    (h : (l.map key).Nodup) :
    l.eraseP (fun x => decide (key x = k)) = l.filter (fun x => decide (key x ≠ k)) := by
  induction l with
  | nil => rfl
  | cons x xs ih =>
    rw [List.map_cons, List.nodup_cons] at h
    by_cases hx : key x = k
    · have hall : ∀ y ∈ xs, key y ≠ k := by
        intro y hy he
        exact h.1 (by rw [hx, ← he]; exact List.mem_map_of_mem key hy)
      have hfil : xs.filter (fun x => decide (key x ≠ k)) = xs :=
        List.filter_eq_self.mpr (fun y hy => by simpa using hall y hy)
      rw [List.eraseP_cons, List.filter_cons]
      simp only [hx, decide_True, cond_true, ne_eq, not_true_eq_false, decide_False,
        Bool.false_eq_true, if_false]
      exact hfil.symm
    · rw [List.eraseP_cons, List.filter_cons]
      simp only [hx, decide_False, cond_false, ne_eq, not_false_eq_true, decide_True, if_true,
        ih h.2]

theorem isOid_exists (i : BsonId) (h : i.isOid = true) : ∃ o, i = BsonId.oid o := by
  cases i with
  | oid o => exact ⟨o, rfl⟩
  | str s => simp [BsonId.isOid] at h

theorem decode_id_ne_iff (ids : List BsonId) (hk : ∀ i ∈ ids, i.isOid = true)
    (oid : ObjectID) (i : BsonId) (hi : i ∈ ids) : i ≠ .oid oid ↔ i.decode ≠ oid.Hex := by
  obtain ⟨o, rfl⟩ := isOid_exists i (hk i hi)
  simp only [BsonId.decode, ne_eq, BsonId.oid.injEq]
  exact ⟨fun h he => h (Hex_injective _ _ he), fun h he => h (by rw [he])⟩

/-! ## The key discipline is kept by every handler -/

theorem ObjectIdKeyed_empty :
    ObjectIdKeyed (Db.empty.doctors.map DoctorDoc._id) ∧
    ObjectIdKeyed (Db.empty.patients.map PatientDoc._id) := by
  decide

theorem ObjectIdKeyed_append_fresh (ids : List BsonId) (o : ObjectID) (h : ObjectIdKeyed ids)
    (hn : BsonId.oid o ∉ ids) : ObjectIdKeyed (ids ++ [.oid o]) := by
  refine ⟨List.Nodup.append h.1 (List.nodup_singleton _) ?_, ?_⟩
  · intro i hi hs
    rw [List.mem_singleton] at hs
    exact hn (hs ▸ hi)
  · intro i hi
    rcases List.mem_append.mp hi with hi | hi
    · exact h.2 i hi
    · rw [List.mem_singleton.mp hi]; rfl

theorem ObjectIdKeyed_sublist (l1 l2 : List BsonId) (hs : l1.Sublist l2) (h : ObjectIdKeyed l2) :
    ObjectIdKeyed l1 :=
  ⟨h.1.sublist hs, fun i hi => h.2 i (hs.subset hi)⟩

theorem updateFirst_map_key {α : Type} (key : α → BsonId) (p : α → Bool) (f : α → α)
    (hkey : ∀ x, key (f x) = key x) (l : List α) : (updateFirst p f l).map key = l.map key := by
  induction l with
  | nil => rfl
  | cons x xs ih =>
    by_cases hx : p x = true
    · simp [updateFirst, hx, hkey]
    · simp [updateFirst, hx, ih]

theorem updateFirst_of_forall_not {α : Type} (p : α → Bool) (f : α → α) (l : List α)
    (h : ∀ x ∈ l, p x = false) : updateFirst p f l = l := by
  induction l with
  | nil => rfl
  | cons x xs ih =>
    have hx : p x = false := h x (List.mem_cons_self _ _)
    simp [updateFirst, hx, ih (fun y hy => h y (List.mem_cons_of_mem _ hy))]

theorem insertDoctor_log (db : Db) (doc : DoctorDoc) : (db.insertDoctor doc).log = db.log := by
  unfold Db.insertDoctor
  split <;> rfl

theorem insertPatient_log (db : Db) (doc : PatientDoc) : (db.insertPatient doc).log = db.log := by
  unfold Db.insertPatient
  split <;> rfl

theorem insertPatient_patients (db : Db) (doc : PatientDoc) :
    (db.insertPatient doc).patients =
      if db.patients.any (fun x => decide (x._id = doc._id)) then db.patients
      else db.patients ++ [doc] := by
  unfold Db.insertPatient
  split <;> rfl

theorem insertPatient_doctors (db : Db) (doc : PatientDoc) :
    (db.insertPatient doc).doctors = db.doctors := by
  unfold Db.insertPatient
  split <;> rfl

theorem insertDoctor_keeps_keys (db : Db) (j : DoctorJSON) (o : ObjectID)
    (h : ObjectIdKeyed (db.doctors.map DoctorDoc._id)) :
    ObjectIdKeyed ((db.insertDoctor (j.stored o)).doctors.map DoctorDoc._id) ∧
    (db.insertDoctor (j.stored o)).patients = db.patients := by
  unfold Db.insertDoctor
  split
  · exact ⟨h, rfl⟩
  · rename_i hany
    refine ⟨?_, rfl⟩
    have hn := (any_id_eq_false DoctorDoc._id (j.stored o)._id db.doctors).mp (by simpa using hany)
    show ObjectIdKeyed ((db.doctors ++ [j.stored o]).map DoctorDoc._id)
    rw [List.map_append]
    refine ObjectIdKeyed_append_fresh _ o h ?_
    intro hm
    obtain ⟨d, hd1, hd2⟩ := List.mem_map.mp hm
    exact hn d hd1 hd2

theorem insertPatient_keeps_keys (db : Db) (j : PatientJSON) (o : ObjectID)
    (h : ObjectIdKeyed (db.patients.map PatientDoc._id)) :
    ObjectIdKeyed ((db.insertPatient (j.stored o)).patients.map PatientDoc._id) ∧
    (db.insertPatient (j.stored o)).doctors = db.doctors := by
  unfold Db.insertPatient
  split
  · exact ⟨h, rfl⟩
  · rename_i hany
    refine ⟨?_, rfl⟩
    have hn := (any_id_eq_false PatientDoc._id (j.stored o)._id db.patients).mp
      (by simpa using hany)
    show ObjectIdKeyed ((db.patients ++ [j.stored o]).map PatientDoc._id)
    rw [List.map_append]
    refine ObjectIdKeyed_append_fresh _ o h ?_
    intro hm
    obtain ⟨d, hd1, hd2⟩ := List.mem_map.mp hm
    exact hn d hd1 hd2

theorem setDoctor_keeps_keys (db : Db) (oid : ObjectID) (name specialty : String)
    (salary : Float64) :
    (db.setDoctor oid name specialty salary).doctors.map DoctorDoc._id =
      db.doctors.map DoctorDoc._id ∧
    (db.setDoctor oid name specialty salary).patients = db.patients :=
  ⟨updateFirst_map_key DoctorDoc._id (fun x => decide (x._id = .oid oid))
    (fun x => { x with name := name, specialty := specialty, salary := salary })
    (fun _ => rfl) db.doctors, rfl⟩

theorem setPatient_keeps_keys (db : Db) (oid : ObjectID) (name : String) (age : Float64)
    (condition : String) (checked : Bool) (doctorId : String) :
    (db.setPatient oid name age condition checked doctorId).patients.map PatientDoc._id =
      db.patients.map PatientDoc._id ∧
    (db.setPatient oid name age condition checked doctorId).doctors = db.doctors :=
  ⟨updateFirst_map_key PatientDoc._id (fun x => decide (x._id = .oid oid))
    (fun x => { x with name := name, age := age, condition := condition, checked := checked
                       doctorId := some doctorId })
    (fun _ => rfl) db.patients, rfl⟩

theorem get_keeps_collections (env : Env) (db : Db) :
    (getDoctor env db).2.doctors = db.doctors ∧ (getDoctor env db).2.patients = db.patients ∧
    (getPatient env db).2.doctors = db.doctors ∧ (getPatient env db).2.patients = db.patients := by
  unfold getDoctor getPatient FindDoctors FindPatients CursorAllDoctors CursorAllPatients
  cases env.fault 0 <;> cases env.fault 1 <;> simp [Db.record]

theorem postDoctor_keeps_keys (env : Env) (body : RequestBody DoctorJSON) (db : Db)
    (h : ObjectIdKeyed (db.doctors.map DoctorDoc._id)) :
    ObjectIdKeyed ((postDoctor env body db).2.doctors.map DoctorDoc._id) ∧
    (postDoctor env body db).2.patients = db.patients := by
  cases body with
  | unparsable err => rw [postDoctor_unparsable]; exact ⟨h, rfl⟩
  | object j =>
    cases hf : env.fault 0 with
    | some f =>
      rw [postDoctor_insert_fault env j db f hf]
      split
      · exact insertDoctor_keeps_keys (db.record _) j env.newObjectID h
      · exact ⟨h, rfl⟩
    | none =>
      by_cases hd : ∃ d ∈ db.doctors, d._id = .oid env.newObjectID
      · rw [postDoctor_duplicate env j db hf hd]; exact ⟨h, rfl⟩
      · have hn : ∀ d ∈ db.doctors, d._id ≠ .oid env.newObjectID :=
          fun d hm he => hd ⟨d, hm, he⟩
        have hfresh : BsonId.oid env.newObjectID ∉ db.doctors.map DoctorDoc._id := by
          intro hm
          obtain ⟨d, hd1, hd2⟩ := List.mem_map.mp hm
          exact hn d hd1 hd2
        have hres : ObjectIdKeyed ((db.doctors ++ [j.stored env.newObjectID]).map DoctorDoc._id) := by
          rw [List.map_append]
          exact ObjectIdKeyed_append_fresh _ _ h hfresh
        cases hr : env.fault 1 with
        | some f => rw [postDoctor_readback_fault env j db f hf hn hr]; exact ⟨hres, rfl⟩
        | none => rw [postDoctor_created env j db hf hn hr]; exact ⟨hres, rfl⟩

theorem postPatient_keeps_keys (env : Env) (body : RequestBody PatientJSON) (db : Db)
    (h : ObjectIdKeyed (db.patients.map PatientDoc._id)) :
    ObjectIdKeyed ((postPatient env body db).2.patients.map PatientDoc._id) ∧
    (postPatient env body db).2.doctors = db.doctors := by
  cases body with
  | unparsable err => rw [postPatient_unparsable]; exact ⟨h, rfl⟩
  | object j =>
    cases hf : env.fault 0 with
    | some f =>
      rw [postPatient_insert_fault env j db f hf]
      split
      · exact insertPatient_keeps_keys (db.record _) j env.newObjectID h
      · exact ⟨h, rfl⟩
    | none =>
      by_cases hd : ∃ d ∈ db.patients, d._id = .oid env.newObjectID
      · rw [postPatient_duplicate env j db hf hd]; exact ⟨h, rfl⟩
      · have hn : ∀ d ∈ db.patients, d._id ≠ .oid env.newObjectID :=
          fun d hm he => hd ⟨d, hm, he⟩
        have hfresh : BsonId.oid env.newObjectID ∉ db.patients.map PatientDoc._id := by
          intro hm
          obtain ⟨d, hd1, hd2⟩ := List.mem_map.mp hm
          exact hn d hd1 hd2
        have hres : ObjectIdKeyed
            ((db.patients ++ [j.stored env.newObjectID]).map PatientDoc._id) := by
          rw [List.map_append]
          exact ObjectIdKeyed_append_fresh _ _ h hfresh
        cases hr : env.fault 1 with
        | some f => rw [postPatient_readback_fault env j db f hf hn hr]; exact ⟨hres, rfl⟩
        | none => rw [postPatient_created env j db hf hn hr]; exact ⟨hres, rfl⟩

theorem putDoctor_keeps_keys (env : Env) (idParam : String) (body : RequestBody DoctorJSON)
    (db : Db) :
    (putDoctor env idParam body db).2.doctors.map DoctorDoc._id = db.doctors.map DoctorDoc._id ∧
    (putDoctor env idParam body db).2.patients = db.patients := by
  cases hid : ObjectIDFromHex idParam with
  | none => rw [putDoctor_malformed_id env idParam body db hid]; exact ⟨rfl, rfl⟩
  | some oid =>
    cases body with
    | unparsable err => rw [putDoctor_malformed_body env idParam err db oid hid]; exact ⟨rfl, rfl⟩
    | object j =>
      cases hf : env.fault 0 with
      | some f =>
        rw [putDoctor_fault env idParam j db oid f hid hf]
        split
        · exact setDoctor_keeps_keys (db.record _) oid _ _ _
        · exact ⟨rfl, rfl⟩
      | none =>
        by_cases hp : ∃ d ∈ db.doctors, d._id = .oid oid
        · rw [putDoctor_present env idParam j db oid hid hf hp]
          exact ⟨updateFirst_map_key DoctorDoc._id (fun x => decide (x._id = .oid oid))
            (fun x => { x with name := j.decode.Name, specialty := j.decode.Specialty
                               salary := j.decode.Salary }) (fun _ => rfl) db.doctors, rfl⟩
        · rw [putDoctor_absent env idParam j db oid hid hf (fun d hd he => hp ⟨d, hd, he⟩)]
          exact ⟨rfl, rfl⟩

theorem putPatient_keeps_keys (env : Env) (idParam : String) (body : RequestBody PatientJSON)
    (db : Db) :
    (putPatient env idParam body db).2.patients.map PatientDoc._id =
      db.patients.map PatientDoc._id ∧
    (putPatient env idParam body db).2.doctors = db.doctors := by
  cases hid : ObjectIDFromHex idParam with
  | none => rw [putPatient_malformed_id env idParam body db hid]; exact ⟨rfl, rfl⟩
  | some oid =>
    cases body with
    | unparsable err => rw [putPatient_malformed_body env idParam err db oid hid]; exact ⟨rfl, rfl⟩
    | object j =>
      cases hf : env.fault 0 with
      | some f =>
        rw [putPatient_fault env idParam j db oid f hid hf]
        split
        · exact setPatient_keeps_keys (db.record _) oid _ _ _ _ _
        · exact ⟨rfl, rfl⟩
      | none =>
        by_cases hp : ∃ d ∈ db.patients, d._id = .oid oid
        · rw [putPatient_present env idParam j db oid hid hf hp]
          exact ⟨updateFirst_map_key PatientDoc._id (fun x => decide (x._id = .oid oid))
            (fun x => { x with name := j.decode.Name, age := j.decode.Age
                               condition := j.decode.Condition, checked := j.decode.Checked
                               doctorId := some j.decode.DoctorID }) (fun _ => rfl) db.patients,
            rfl⟩
        · rw [putPatient_absent env idParam j db oid hid hf (fun d hd he => hp ⟨d, hd, he⟩)]
          exact ⟨rfl, rfl⟩

theorem deleteDoctor_keeps_keys (env : Env) (idParam : String) (db : Db)
    (h : ObjectIdKeyed (db.doctors.map DoctorDoc._id)) :
    ObjectIdKeyed ((deleteDoctor env idParam db).2.doctors.map DoctorDoc._id) ∧
    (deleteDoctor env idParam db).2.patients = db.patients := by
  cases hid : ObjectIDFromHex idParam with
  | none => rw [deleteDoctor_malformed env idParam db hid]; exact ⟨h, rfl⟩
  | some oid =>
    cases hf : env.fault 0 with
    | some f =>
      rw [deleteDoctor_fault env idParam db oid f hid hf]
      split
      · exact ⟨ObjectIdKeyed_sublist _ _ ((List.eraseP_sublist db.doctors).map _) h, rfl⟩
      · exact ⟨h, rfl⟩
    | none =>
      by_cases hp : ∃ d ∈ db.doctors, d._id = .oid oid
      · rw [deleteDoctor_present env idParam db oid hid hf hp]
        exact ⟨ObjectIdKeyed_sublist _ _ ((List.eraseP_sublist db.doctors).map _) h, rfl⟩
      · rw [deleteDoctor_absent env idParam db oid hid hf (fun d hd he => hp ⟨d, hd, he⟩)]
        exact ⟨h, rfl⟩

theorem deletePatient_keeps_keys (env : Env) (idParam : String) (db : Db)
    (h : ObjectIdKeyed (db.patients.map PatientDoc._id)) :
    ObjectIdKeyed ((deletePatient env idParam db).2.patients.map PatientDoc._id) ∧
    (deletePatient env idParam db).2.doctors = db.doctors := by
  cases hid : ObjectIDFromHex idParam with
  | none => rw [deletePatient_malformed env idParam db hid]; exact ⟨h, rfl⟩
  | some oid =>
    cases hf : env.fault 0 with
    | some f =>
      rw [deletePatient_fault env idParam db oid f hid hf]
      split
      · exact ⟨ObjectIdKeyed_sublist _ _ ((List.eraseP_sublist db.patients).map _) h, rfl⟩
      · exact ⟨h, rfl⟩
    | none =>
      by_cases hp : ∃ d ∈ db.patients, d._id = .oid oid
      · rw [deletePatient_present env idParam db oid hid hf hp]
        exact ⟨ObjectIdKeyed_sublist _ _ ((List.eraseP_sublist db.patients).map _) h, rfl⟩
      · rw [deletePatient_absent env idParam db oid hid hf (fun d hd he => hp ⟨d, hd, he⟩)]
        exact ⟨h, rfl⟩

/-! ## DELETE: classification of every request -/

/-- C1: `DELETE /doctor/{id}` and `DELETE /patient/{id}` answer 400 exactly
when the path id is not 24 hexadecimal digits, and then the database, its call
log included, is untouched (the store is not called); 500 exactly when the id
is well formed and the store's delete fails; 404 exactly when the id is well
formed, the delete succeeds and no document has that id; 200 exactly when the
id is well formed, the delete succeeds and a document has that id, and then
the body is the JSON string "record deleted". The four conditions exclude one
another and cover every request. -/
theorem C1_delete_classification (env : Env) (idParam : String) (db : Db) :
    (((deleteDoctor env idParam db).1.status = 400 ↔ ¬ isHex24 idParam) ∧
     (¬ isHex24 idParam → deleteDoctor env idParam db = (SendStatus 400, db)) ∧
     ((deleteDoctor env idParam db).1.status = 500 ↔ isHex24 idParam ∧ env.fault 0 ≠ none) ∧
     ((deleteDoctor env idParam db).1.status = 404 ↔
        isHex24 idParam ∧ env.fault 0 = none ∧
          ∀ oid, ObjectIDFromHex idParam = some oid → ∀ d ∈ db.doctors, d._id ≠ .oid oid) ∧
     ((deleteDoctor env idParam db).1.status = 200 ↔
        isHex24 idParam ∧ env.fault 0 = none ∧
          ∃ oid, ObjectIDFromHex idParam = some oid ∧ ∃ d ∈ db.doctors, d._id = .oid oid) ∧
     ((deleteDoctor env idParam db).1.status = 200 →
        (deleteDoctor env idParam db).1.body = .jsonString "record deleted")) ∧
    (((deletePatient env idParam db).1.status = 400 ↔ ¬ isHex24 idParam) ∧
     (¬ isHex24 idParam → deletePatient env idParam db = (SendStatus 400, db)) ∧
     ((deletePatient env idParam db).1.status = 500 ↔ isHex24 idParam ∧ env.fault 0 ≠ none) ∧
     ((deletePatient env idParam db).1.status = 404 ↔
        isHex24 idParam ∧ env.fault 0 = none ∧
          ∀ oid, ObjectIDFromHex idParam = some oid → ∀ d ∈ db.patients, d._id ≠ .oid oid) ∧
     ((deletePatient env idParam db).1.status = 200 ↔
        isHex24 idParam ∧ env.fault 0 = none ∧
          ∃ oid, ObjectIDFromHex idParam = some oid ∧ ∃ d ∈ db.patients, d._id = .oid oid) ∧
     ((deletePatient env idParam db).1.status = 200 →
        (deletePatient env idParam db).1.body = .jsonString "record deleted")) := by
  cases hid : ObjectIDFromHex idParam with
  | none =>
    have hwf : ¬ isHex24 idParam := (ObjectIDFromHex_eq_none_iff idParam).mp hid
    rw [deleteDoctor_malformed env idParam db hid, deletePatient_malformed env idParam db hid]
    simp [SendStatus, hwf]
  | some oid =>
    have hwf : isHex24 idParam :=
      (ObjectIDFromHex_isSome_iff idParam).mp (by simp [hid])
    cases hf : env.fault 0 with
    | some err =>
      rw [deleteDoctor_fault env idParam db oid err hid hf,
        deletePatient_fault env idParam db oid err hid hf]
      simp [SendStatus, hwf]
    | none =>
      constructor
      · by_cases hp : ∃ d ∈ db.doctors, d._id = .oid oid
        · rw [deleteDoctor_present env idParam db oid hid hf hp]
          obtain ⟨d, hd, hdo⟩ := hp
          simp only [SendStatus, hwf]
          simp
          exact ⟨d, hd, hdo⟩
        · have ha : ∀ d ∈ db.doctors, d._id ≠ .oid oid := fun d hd he => hp ⟨d, hd, he⟩
          rw [deleteDoctor_absent env idParam db oid hid hf ha]
          simp only [SendStatus, hwf]
          simp
          exact ha
      · by_cases hp : ∃ d ∈ db.patients, d._id = .oid oid
        · rw [deletePatient_present env idParam db oid hid hf hp]
          obtain ⟨d, hd, hdo⟩ := hp
          simp only [SendStatus, hwf]
          simp
          exact ⟨d, hd, hdo⟩
        · have ha : ∀ d ∈ db.patients, d._id ≠ .oid oid := fun d hd he => hp ⟨d, hd, he⟩
          rw [deletePatient_absent env idParam db oid hid hf ha]
          simp only [SendStatus, hwf]
          simp
          exact ha

/-- C1 at four concrete requests on a collection holding `oid1` and `oid2`:
a malformed id (400, database untouched), a failing store (500), an id that
no document has (404), and the id of the first document (200). -/
theorem C1_delete_classification_witness :
    deleteDoctor (Env.working oid1) "not-an-id" Db.twoDoctors = (SendStatus 400, Db.twoDoctors) ∧
    (deleteDoctor (Env.failingAt oid1 0 "connection reset") "000000000000000000000001"
      Db.twoDoctors).1.status = 500 ∧
    (deleteDoctor (Env.working oid1) "0000000000000000000000ff" Db.twoDoctors).1.status = 404 ∧
    (deleteDoctor (Env.working oid1) "000000000000000000000001" Db.twoDoctors).1.body =
      .jsonString "record deleted" :=
  ⟨(C1_delete_classification (Env.working oid1) "not-an-id" Db.twoDoctors).1.2.1 (by decide),
   (C1_delete_classification (Env.failingAt oid1 0 "connection reset")
      "000000000000000000000001" Db.twoDoctors).1.2.2.1.mpr ⟨by decide, by decide⟩,
   (C1_delete_classification (Env.working oid1) "0000000000000000000000ff"
      Db.twoDoctors).1.2.2.2.1.mpr ⟨by decide, rfl, fun oid h d hd => by
        have h1 : ObjectIDFromHex "0000000000000000000000ff" =
            some ⟨[0, 0, 0, 0, 0, 0, 0, 0, 0, 0, 0, 255], rfl⟩ := by decide
        rw [h1] at h
        cases h
        revert d
        decide⟩,
   (C1_delete_classification (Env.working oid1) "000000000000000000000001"
      Db.twoDoctors).1.2.2.2.2.2 (by decide)⟩

/-! ## PUT: unknown and malformed identifiers -/

/-- C2, as stated, fails: with a working store, `PUT` with the well-formed
identifier `000000000000000000000001`, which matches no stored document, and
`PUT` with the malformed identifier `not-an-id` get the same response (status
and body), for doctors and for patients. -/
theorem C2_put_unknown_and_malformed_indistinguishable :
    ObjectIDFromHex "000000000000000000000001" = some oid1 ∧
    (∀ d ∈ Db.oneDoctor.doctors, d._id ≠ .oid oid1) ∧
    (∀ d ∈ Db.onePatient.patients, d._id ≠ .oid oid1) ∧
    ObjectIDFromHex "not-an-id" = none ∧
    (putDoctor (Env.working oid1) "000000000000000000000001"
        (.object ⟨none, some "B", some "X", some ⟨150⟩⟩) Db.oneDoctor).1 =
      (putDoctor (Env.working oid1) "not-an-id"
        (.object ⟨none, some "B", some "X", some ⟨150⟩⟩) Db.oneDoctor).1 ∧
    (putPatient (Env.working oid1) "000000000000000000000001"
        (.object ⟨none, some "Q", some ⟨31⟩, some "cold", some true, none⟩) Db.onePatient).1 =
      (putPatient (Env.working oid1) "not-an-id"
        (.object ⟨none, some "Q", some ⟨31⟩, some "cold", some true, none⟩) Db.onePatient).1 := by
  decide

/-- C2, amended: for every body that parses, when the store's update does not
fail, `PUT` with a well-formed identifier that matches no stored document
answers 400 with the reason phrase as body, `PUT` with a malformed identifier
answers the same, and so the two responses are equal; for doctors and for
patients. -/
theorem C2_put_unknown_and_malformed_both_400 (env : Env) (idA idB : String) (oid : ObjectID)
    (jd : DoctorJSON) (jp : PatientJSON) (db : Db)
    (hA : ObjectIDFromHex idA = some oid) (hB : ObjectIDFromHex idB = none)
    (hf : env.fault 0 = none) :
    ((∀ d ∈ db.doctors, d._id ≠ .oid oid) →
      (putDoctor env idA (.object jd) db).1 = ⟨400, .text "Bad Request"⟩ ∧
      (putDoctor env idB (.object jd) db).1 = ⟨400, .text "Bad Request"⟩ ∧
      (putDoctor env idA (.object jd) db).1 = (putDoctor env idB (.object jd) db).1) ∧
    ((∀ d ∈ db.patients, d._id ≠ .oid oid) →
      (putPatient env idA (.object jp) db).1 = ⟨400, .text "Bad Request"⟩ ∧
      (putPatient env idB (.object jp) db).1 = ⟨400, .text "Bad Request"⟩ ∧
      (putPatient env idA (.object jp) db).1 = (putPatient env idB (.object jp) db).1) := by
  constructor
  · intro ha
    rw [putDoctor_absent env idA jd db oid hA hf ha, putDoctor_malformed_id env idB _ db hB]
    simp [SendStatus, StatusMessage]
  · intro ha
    rw [putPatient_absent env idA jp db oid hA hf ha, putPatient_malformed_id env idB _ db hB]
    simp [SendStatus, StatusMessage]

/-- C2, amended, at a concrete request: identifier `000000000000000000000001`
against stores that hold only `oid2`, and the malformed `not-an-id`. -/
theorem C2_put_unknown_and_malformed_both_400_witness :
    (putDoctor (Env.working oid1) "000000000000000000000001"
        (.object ⟨none, some "B", some "X", some ⟨150⟩⟩) ⟨Db.oneDoctor.doctors, Db.onePatient.patients, []⟩).1
      = ⟨400, .text "Bad Request"⟩ ∧
    (putPatient (Env.working oid1) "not-an-id"
        (.object ⟨none, some "Q", some ⟨31⟩, some "cold", some true, none⟩)
        ⟨Db.oneDoctor.doctors, Db.onePatient.patients, []⟩).1
      = ⟨400, .text "Bad Request"⟩ :=
  have h := C2_put_unknown_and_malformed_both_400 (Env.working oid1)
    "000000000000000000000001" "not-an-id" oid1 ⟨none, some "B", some "X", some ⟨150⟩⟩
    ⟨none, some "Q", some ⟨31⟩, some "cold", some true, none⟩
    ⟨Db.oneDoctor.doctors, Db.onePatient.patients, []⟩ (by decide) (by decide) rfl
  ⟨(h.1 (by decide)).1, (h.2 (by decide)).2.1⟩

/-! ## PUT: what a failed update leaves behind -/

/-- C8, as stated, fails: on a collection that holds `oid2`, a `PUT` for `oid2`
whose update the store carries out before the round trip fails is answered
500, and the document holds the new values; for doctors and for patients. -/
theorem C8_put_500_with_update_applied :
    (putDoctor (Env.failingAfter oid1 0 "connection reset") "000000000000000000000002"
        (.object ⟨none, some "B", some "X", some ⟨150⟩⟩) Db.oneDoctor).1.status = 500 ∧
    (putDoctor (Env.failingAfter oid1 0 "connection reset") "000000000000000000000002"
        (.object ⟨none, some "B", some "X", some ⟨150⟩⟩) Db.oneDoctor).2.doctors =
      [⟨.oid oid2, "B", "X", ⟨150⟩⟩] ∧
    (putDoctor (Env.failingAfter oid1 0 "connection reset") "000000000000000000000002"
        (.object ⟨none, some "B", some "X", some ⟨150⟩⟩) Db.oneDoctor).2.doctors ≠
      Db.oneDoctor.doctors ∧
    (putPatient (Env.failingAfter oid1 0 "connection reset") "000000000000000000000002"
        (.object ⟨none, some "Q", some ⟨31⟩, some "cold", some true, none⟩)
        Db.onePatient).1.status = 500 ∧
    (putPatient (Env.failingAfter oid1 0 "connection reset") "000000000000000000000002"
        (.object ⟨none, some "Q", some ⟨31⟩, some "cold", some true, none⟩)
        Db.onePatient).2.patients = [⟨.oid oid2, "Q", ⟨31⟩, "cold", true, some ""⟩] ∧
    (putPatient (Env.failingAfter oid1 0 "connection reset") "000000000000000000000002"
        (.object ⟨none, some "Q", some ⟨31⟩, some "cold", some true, none⟩)
        Db.onePatient).2.patients ≠ Db.onePatient.patients := by
  decide

/-- C8, amended: whenever `PUT /doctor/{id}` or `PUT /patient/{id}` answers 400
(malformed id, body that does not parse, or no document with that id) both
collections are as they were; a malformed id or a body that does not parse
leaves the whole database untouched, call log included (no store operation is
issued); a well-formed id that matches no document never gets 200 and leaves
the collection as it was (nothing is created); no `PUT`, whatever its status,
adds or removes a document, changes an `_id` or touches the other collection;
a status other than 200 is 400 or 500; and 500 is answered only when the
store's round trip failed, with the collection either as it was or holding the
complete update of the matching document, as a successful update leaves it. -/
theorem C8_rejected_put_applies_nothing (env : Env) (idParam : String)
    (bodyD : RequestBody DoctorJSON) (bodyP : RequestBody PatientJSON) (db : Db) :
    (((putDoctor env idParam bodyD db).1.status = 400 →
        (putDoctor env idParam bodyD db).2.doctors = db.doctors ∧
        (putDoctor env idParam bodyD db).2.patients = db.patients) ∧
     ((ObjectIDFromHex idParam = none ∨ ∃ err, bodyD = .unparsable err) →
        (putDoctor env idParam bodyD db).1.status = 400 ∧
        (putDoctor env idParam bodyD db).2 = db) ∧
     (∀ oid, ObjectIDFromHex idParam = some oid → (∀ d ∈ db.doctors, d._id ≠ .oid oid) →
        (putDoctor env idParam bodyD db).1.status ≠ 200 ∧
        (putDoctor env idParam bodyD db).2.doctors = db.doctors) ∧
     ((putDoctor env idParam bodyD db).2.doctors.map DoctorDoc._id = db.doctors.map DoctorDoc._id ∧
      (putDoctor env idParam bodyD db).2.patients = db.patients) ∧
     ((putDoctor env idParam bodyD db).1.status ≠ 200 →
        (putDoctor env idParam bodyD db).1.status = 400 ∨
        (putDoctor env idParam bodyD db).1.status = 500) ∧
     ((putDoctor env idParam bodyD db).1.status = 500 →
        env.fault 0 ≠ none ∧
        ((putDoctor env idParam bodyD db).2.doctors = db.doctors ∨
         ∃ oid j, ObjectIDFromHex idParam = some oid ∧ bodyD = .object j ∧
           (putDoctor env idParam bodyD db).2.doctors =
             (db.setDoctor oid j.decode.Name j.decode.Specialty j.decode.Salary).doctors))) ∧
    (((putPatient env idParam bodyP db).1.status = 400 →
        (putPatient env idParam bodyP db).2.patients = db.patients ∧
        (putPatient env idParam bodyP db).2.doctors = db.doctors) ∧
     ((ObjectIDFromHex idParam = none ∨ ∃ err, bodyP = .unparsable err) →
        (putPatient env idParam bodyP db).1.status = 400 ∧
        (putPatient env idParam bodyP db).2 = db) ∧
     (∀ oid, ObjectIDFromHex idParam = some oid → (∀ d ∈ db.patients, d._id ≠ .oid oid) →
        (putPatient env idParam bodyP db).1.status ≠ 200 ∧
        (putPatient env idParam bodyP db).2.patients = db.patients) ∧
     ((putPatient env idParam bodyP db).2.patients.map PatientDoc._id = db.patients.map PatientDoc._id ∧
      (putPatient env idParam bodyP db).2.doctors = db.doctors) ∧
     ((putPatient env idParam bodyP db).1.status ≠ 200 →
        (putPatient env idParam bodyP db).1.status = 400 ∨
        (putPatient env idParam bodyP db).1.status = 500) ∧
     ((putPatient env idParam bodyP db).1.status = 500 →
        env.fault 0 ≠ none ∧
        ((putPatient env idParam bodyP db).2.patients = db.patients ∨
         ∃ oid j, ObjectIDFromHex idParam = some oid ∧ bodyP = .object j ∧
           (putPatient env idParam bodyP db).2.patients =
             (db.setPatient oid j.decode.Name j.decode.Age j.decode.Condition
               j.decode.Checked j.decode.DoctorID).patients))) := by
  constructor
  · cases hid : ObjectIDFromHex idParam with
    | none =>
      rw [putDoctor_malformed_id env idParam bodyD db hid]
      exact ⟨fun _ => ⟨rfl, rfl⟩, fun _ => ⟨rfl, rfl⟩, fun _ ho => (by cases ho), ⟨rfl, rfl⟩,
        fun _ => Or.inl rfl, fun h => by simp [SendStatus] at h⟩
    | some oid =>
      cases bodyD with
      | unparsable err =>
        rw [putDoctor_malformed_body env idParam err db oid hid]
        exact ⟨fun _ => ⟨rfl, rfl⟩, fun _ => ⟨rfl, rfl⟩,
          fun o _ _ => ⟨by simp [SendString], rfl⟩, ⟨rfl, rfl⟩, fun _ => Or.inl rfl,
          fun h => by simp [SendString] at h⟩
      | object j =>
        cases hf : env.fault 0 with
        | some f =>
          rw [putDoctor_fault env idParam j db oid f hid hf]
          by_cases ha : f.applied = true
          · rw [if_pos ha]
            refine ⟨fun h => by simp [SendStatus] at h, fun h => ?_,
              fun o ho hab => ⟨by simp [SendStatus], ?_⟩,
              setDoctor_keeps_keys (db.record _) oid _ _ _, fun _ => Or.inr rfl,
              fun _ => ⟨by simp, Or.inr ⟨oid, j, rfl, rfl, rfl⟩⟩⟩
            · rcases h with h | ⟨e, h⟩ <;> cases h
            · cases ho
              exact updateFirst_of_forall_not _ _ _ (fun x hx => by simpa using hab x hx)
          · rw [if_neg ha]
            refine ⟨fun h => by simp [SendStatus] at h, fun h => ?_,
              fun o _ _ => ⟨by simp [SendStatus], rfl⟩, ⟨rfl, rfl⟩, fun _ => Or.inr rfl,
              fun _ => ⟨by simp, Or.inl rfl⟩⟩
            rcases h with h | ⟨e, h⟩ <;> cases h
        | none =>
          by_cases hp : ∃ d ∈ db.doctors, d._id = .oid oid
          · rw [putDoctor_present env idParam j db oid hid hf hp]
            obtain ⟨d, hd, hdo⟩ := hp
            refine ⟨fun h => by simp at h, fun h => ?_, fun o ho hab => ?_,
              setDoctor_keeps_keys (db.record _) oid _ _ _, fun h => absurd rfl h,
              fun h => by simp at h⟩
            · rcases h with h | ⟨e, h⟩ <;> cases h
            · cases ho
              exact absurd hdo (hab d hd)
          · have hab : ∀ d ∈ db.doctors, d._id ≠ .oid oid := fun d hd he => hp ⟨d, hd, he⟩
            rw [putDoctor_absent env idParam j db oid hid hf hab]
            refine ⟨fun _ => ⟨rfl, rfl⟩, fun h => ?_, fun o _ _ => ⟨by simp [SendStatus], rfl⟩,
              ⟨rfl, rfl⟩, fun _ => Or.inl rfl, fun h => by simp [SendStatus] at h⟩
            rcases h with h | ⟨e, h⟩ <;> cases h
  · cases hid : ObjectIDFromHex idParam with
    | none =>
      rw [putPatient_malformed_id env idParam bodyP db hid]
      exact ⟨fun _ => ⟨rfl, rfl⟩, fun _ => ⟨rfl, rfl⟩, fun _ ho => (by cases ho), ⟨rfl, rfl⟩,
        fun _ => Or.inl rfl, fun h => by simp [SendStatus] at h⟩
    | some oid =>
      cases bodyP with
      | unparsable err =>
        rw [putPatient_malformed_body env idParam err db oid hid]
        exact ⟨fun _ => ⟨rfl, rfl⟩, fun _ => ⟨rfl, rfl⟩,
          fun o _ _ => ⟨by simp [SendString], rfl⟩, ⟨rfl, rfl⟩, fun _ => Or.inl rfl,
          fun h => by simp [SendString] at h⟩
      | object j =>
        cases hf : env.fault 0 with
        | some f =>
          rw [putPatient_fault env idParam j db oid f hid hf]
          by_cases ha : f.applied = true
          · rw [if_pos ha]
            refine ⟨fun h => by simp [SendStatus] at h, fun h => ?_,
              fun o ho hab => ⟨by simp [SendStatus], ?_⟩,
              setPatient_keeps_keys (db.record _) oid _ _ _ _ _, fun _ => Or.inr rfl,
              fun _ => ⟨by simp, Or.inr ⟨oid, j, rfl, rfl, rfl⟩⟩⟩
            · rcases h with h | ⟨e, h⟩ <;> cases h
            · cases ho
              exact updateFirst_of_forall_not _ _ _ (fun x hx => by simpa using hab x hx)
          · rw [if_neg ha]
            refine ⟨fun h => by simp [SendStatus] at h, fun h => ?_,
              fun o _ _ => ⟨by simp [SendStatus], rfl⟩, ⟨rfl, rfl⟩, fun _ => Or.inr rfl,
              fun _ => ⟨by simp, Or.inl rfl⟩⟩
            rcases h with h | ⟨e, h⟩ <;> cases h
        | none =>
          by_cases hp : ∃ d ∈ db.patients, d._id = .oid oid
          · rw [putPatient_present env idParam j db oid hid hf hp]
            obtain ⟨d, hd, hdo⟩ := hp
            refine ⟨fun h => by simp at h, fun h => ?_, fun o ho hab => ?_,
              setPatient_keeps_keys (db.record _) oid _ _ _ _ _, fun h => absurd rfl h,
              fun h => by simp at h⟩
            · rcases h with h | ⟨e, h⟩ <;> cases h
            · cases ho
              exact absurd hdo (hab d hd)
          · have hab : ∀ d ∈ db.patients, d._id ≠ .oid oid := fun d hd he => hp ⟨d, hd, he⟩
            rw [putPatient_absent env idParam j db oid hid hf hab]
            refine ⟨fun _ => ⟨rfl, rfl⟩, fun h => ?_, fun o _ _ => ⟨by simp [SendStatus], rfl⟩,
              ⟨rfl, rfl⟩, fun _ => Or.inl rfl, fun h => by simp [SendStatus] at h⟩
            rcases h with h | ⟨e, h⟩ <;> cases h

/-- C8, amended, at concrete requests on a collection holding only `oid2`: a
`PUT` for `oid1`, which no document has, and a `PUT` with a malformed id are
answered 400 and leave the store as it was; a `PUT` for `oid2` answered 500
leaves the identifiers as they were. -/
theorem C8_rejected_put_applies_nothing_witness :
    (putDoctor (Env.working oid1) "000000000000000000000001"
      (.object ⟨none, some "B", some "X", some ⟨150⟩⟩) Db.oneDoctor).2.doctors =
        Db.oneDoctor.doctors ∧
    (putDoctor (Env.working oid1) "not-an-id"
      (.object ⟨none, some "B", some "X", some ⟨150⟩⟩) Db.oneDoctor).2 = Db.oneDoctor ∧
    (putDoctor (Env.failingAfter oid1 0 "connection reset") "000000000000000000000002"
      (.object ⟨none, some "B", some "X", some ⟨150⟩⟩) Db.oneDoctor).2.doctors.map
        DoctorDoc._id = Db.oneDoctor.doctors.map DoctorDoc._id ∧
    (putPatient (Env.working oid1) "000000000000000000000001"
      (.object ⟨none, some "Q", some ⟨31⟩, some "cold", some true, none⟩)
      Db.onePatient).2.patients = Db.onePatient.patients :=
  ⟨((C8_rejected_put_applies_nothing (Env.working oid1) "000000000000000000000001"
      (.object ⟨none, some "B", some "X", some ⟨150⟩⟩) (.unparsable "") Db.oneDoctor).1.1
      (by decide)).1,
   ((C8_rejected_put_applies_nothing (Env.working oid1) "not-an-id"
      (.object ⟨none, some "B", some "X", some ⟨150⟩⟩) (.unparsable "") Db.oneDoctor).1.2.1
      (Or.inl (by decide))).2,
   (C8_rejected_put_applies_nothing (Env.failingAfter oid1 0 "connection reset")
      "000000000000000000000002"
      (.object ⟨none, some "B", some "X", some ⟨150⟩⟩) (.unparsable "")
      Db.oneDoctor).1.2.2.2.1.1,
   ((C8_rejected_put_applies_nothing (Env.working oid1) "000000000000000000000001"
      (.unparsable "") (.object ⟨none, some "Q", some ⟨31⟩, some "cold", some true, none⟩)
      Db.onePatient).2.1 (by decide)).1⟩

/-! ## POST: the identifier comes from the store -/

/-- C3: `POST /doctor` and `POST /patient` ignore an identifier supplied in the
body. For every body that parses, the first call issued to the store is the
insert of the parsed entity with its identifier emptied, followed at most by
the read-back; two bodies that differ only in their `id` member give the same
response and the same database (call log, hence insert argument, included);
and in a 201 response an identifier that is present is the hexadecimal text of
the identifier the store assigned, which it always is when the read-back is
served. -/
theorem C3_post_ignores_supplied_id (env : Env) (jd : DoctorJSON) (jp : PatientJSON)
    (s1 s2 : Option String) (db : Db) :
    ((∃ d rest, (postDoctor env (.object jd) db).2.log = db.log ++ .insertDoctor d :: rest ∧
        d.ID = "" ∧ d = { jd.decode with ID := "" } ∧
        (rest = [] ∨ rest = [.findOne "doctors" (.oid env.newObjectID)])) ∧
     postDoctor env (.object { jd with id := s1 }) db =
       postDoctor env (.object { jd with id := s2 }) db ∧
     ((postDoctor env (.object jd) db).1.status = 201 →
        ∃ e, (postDoctor env (.object jd) db).1.body = .doctor e ∧
          (e.ID ≠ "" → e.ID = env.newObjectID.Hex) ∧
          (env.fault 1 = none → e.ID = env.newObjectID.Hex))) ∧
    ((∃ p rest, (postPatient env (.object jp) db).2.log = db.log ++ .insertPatient p :: rest ∧
        p.ID = "" ∧ p = { jp.decode with ID := "" } ∧
        (rest = [] ∨ rest = [.findOne "patients" (.oid env.newObjectID)])) ∧
     postPatient env (.object { jp with id := s1 }) db =
       postPatient env (.object { jp with id := s2 }) db ∧
     ((postPatient env (.object jp) db).1.status = 201 →
        ∃ e, (postPatient env (.object jp) db).1.body = .patient e ∧
          (e.ID ≠ "" → e.ID = env.newObjectID.Hex) ∧
          (env.fault 1 = none → e.ID = env.newObjectID.Hex))) := by
  constructor
  · refine ⟨?_, rfl, ?_⟩
    · cases hf : env.fault 0 with
      | some f =>
        rw [postDoctor_insert_fault env jd db f hf]
        refine ⟨{ jd.decode with ID := "" }, [], ?_, rfl, rfl, Or.inl rfl⟩
        split
        · exact insertDoctor_log (db.record _) _
        · rfl
      | none =>
        by_cases hd : ∃ d ∈ db.doctors, d._id = .oid env.newObjectID
        · rw [postDoctor_duplicate env jd db hf hd]
          exact ⟨_, [], rfl, rfl, rfl, Or.inl rfl⟩
        · have hn : ∀ d ∈ db.doctors, d._id ≠ .oid env.newObjectID :=
            fun d hm he => hd ⟨d, hm, he⟩
          cases hr : env.fault 1 with
          | some f =>
            rw [postDoctor_readback_fault env jd db f hf hn hr]
            exact ⟨_, _, rfl, rfl, rfl, Or.inr rfl⟩
          | none =>
            rw [postDoctor_created env jd db hf hn hr]
            exact ⟨_, _, rfl, rfl, rfl, Or.inr rfl⟩
    · cases hf : env.fault 0 with
      | some f =>
        rw [postDoctor_insert_fault env jd db f hf]
        simp [SendString]
      | none =>
        by_cases hd : ∃ d ∈ db.doctors, d._id = .oid env.newObjectID
        · rw [postDoctor_duplicate env jd db hf hd]
          simp [SendString]
        · have hn : ∀ d ∈ db.doctors, d._id ≠ .oid env.newObjectID :=
            fun d hm he => hd ⟨d, hm, he⟩
          cases hr : env.fault 1 with
          | some f =>
            rw [postDoctor_readback_fault env jd db f hf hn hr]
            intro _
            exact ⟨_, rfl, fun h => absurd rfl h, fun h => by simp at h⟩
          | none =>
            rw [postDoctor_created env jd db hf hn hr]
            intro _
            exact ⟨_, rfl, fun _ => rfl, fun _ => rfl⟩
  · refine ⟨?_, rfl, ?_⟩
    · cases hf : env.fault 0 with
      | some f =>
        rw [postPatient_insert_fault env jp db f hf]
        refine ⟨{ jp.decode with ID := "" }, [], ?_, rfl, rfl, Or.inl rfl⟩
        split
        · exact insertPatient_log (db.record _) _
        · rfl
      | none =>
        by_cases hd : ∃ d ∈ db.patients, d._id = .oid env.newObjectID
        · rw [postPatient_duplicate env jp db hf hd]
          exact ⟨_, [], rfl, rfl, rfl, Or.inl rfl⟩
        · have hn : ∀ d ∈ db.patients, d._id ≠ .oid env.newObjectID :=
            fun d hm he => hd ⟨d, hm, he⟩
          cases hr : env.fault 1 with
          | some f =>
            rw [postPatient_readback_fault env jp db f hf hn hr]
            exact ⟨_, _, rfl, rfl, rfl, Or.inr rfl⟩
          | none =>
            rw [postPatient_created env jp db hf hn hr]
            exact ⟨_, _, rfl, rfl, rfl, Or.inr rfl⟩
    · cases hf : env.fault 0 with
      | some f =>
        rw [postPatient_insert_fault env jp db f hf]
        simp [SendString]
      | none =>
        by_cases hd : ∃ d ∈ db.patients, d._id = .oid env.newObjectID
        · rw [postPatient_duplicate env jp db hf hd]
          simp [SendString]
        · have hn : ∀ d ∈ db.patients, d._id ≠ .oid env.newObjectID :=
            fun d hm he => hd ⟨d, hm, he⟩
          cases hr : env.fault 1 with
          | some f =>
            rw [postPatient_readback_fault env jp db f hf hn hr]
            intro _
            exact ⟨_, rfl, fun h => absurd rfl h, fun h => by simp at h⟩
          | none =>
            rw [postPatient_created env jp db hf hn hr]
            intro _
            exact ⟨_, rfl, fun _ => rfl, fun _ => rfl⟩

/-- C3 at a concrete request: `POST /doctor` with the supplied identifier
`abc` answers 201 with the identifier the store assigned. -/
theorem C3_post_ignores_supplied_id_witness :
    ∃ e, (postDoctor (Env.working oid1)
        (.object ⟨some "abc", some "A", some "X", some ⟨100⟩⟩) Db.empty).1.body = .doctor e ∧
      e.ID = "000000000000000000000001" :=
  match (C3_post_ignores_supplied_id (Env.working oid1)
    ⟨some "abc", some "A", some "X", some ⟨100⟩⟩ ⟨none, none, none, none, none, none⟩
    none none Db.empty).1.2.2 (by decide) with
  | ⟨e, he, _, hid⟩ => ⟨e, he, hid rfl⟩

/-! ## POST: a failed read-back -/

/-- C7, at the failing input: on an empty database, `POST /doctor` with body
`{name: "A", specialty: "X", salary: 100}` whose insert succeeds and whose
read-back fails answers 201 with the zero `Doctor` (empty identifier, empty
name), although the document was stored; `POST /patient` does the same
with the zero `Patient`. -/
theorem C7_post_readback_failure_answers_201 :
    postDoctor (Env.failingAt oid1 1 "connection reset")
        (.object ⟨none, some "A", some "X", some ⟨100⟩⟩) Db.empty =
      (⟨201, .doctor ⟨"", "", "", ⟨0⟩⟩⟩,
       ⟨[⟨.oid oid1, "A", "X", ⟨100⟩⟩], [],
        [.insertDoctor ⟨"", "A", "X", ⟨100⟩⟩, .findOne "doctors" (.oid oid1)]⟩) ∧
    postPatient (Env.failingAt oid1 1 "connection reset")
        (.object ⟨none, some "P", some ⟨30⟩, some "flu", some true, some "d1"⟩) Db.empty =
      (⟨201, .patient ⟨"", "", ⟨0⟩, "", false, ""⟩⟩,
       ⟨[], [⟨.oid oid1, "P", ⟨30⟩, "flu", true, some "d1"⟩],
        [.insertPatient ⟨"", "P", ⟨30⟩, "flu", true, "d1"⟩, .findOne "patients" (.oid oid1)]⟩) := by
  decide

/-! ## POST then GET -/

/-- C4: against a store whose round trips succeed, whenever `POST /doctor`
(`POST /patient`) answers 201 for a parsed body, the response carries an
entity whose fields are the body's values (zero where a member is left out)
and whose identifier is non-empty and accepted by `ObjectIDFromHex`, the check
that `PUT` and `DELETE` apply; and `GET` on the resulting database answers 200
with a sequence that contains that same entity. -/
theorem C4_post_then_list (envPost envGet : Env) (jd : DoctorJSON) (jp : PatientJSON) (db : Db)
    (h0 : envPost.fault 0 = none) (h1 : envPost.fault 1 = none)
    (g0 : envGet.fault 0 = none) (g1 : envGet.fault 1 = none) :
    ((postDoctor envPost (.object jd) db).1.status = 201 →
      ∃ e listed,
        (postDoctor envPost (.object jd) db).1 = ⟨201, .doctor e⟩ ∧
        (getDoctor envGet (postDoctor envPost (.object jd) db).2).1 = ⟨200, .doctors listed⟩ ∧
        e ∈ listed ∧
        e.Name = jd.name.getD "" ∧ e.Specialty = jd.specialty.getD "" ∧
        e.Salary = jd.salary.getD ⟨0⟩ ∧
        e.ID ≠ "" ∧ isHex24 e.ID ∧ (ObjectIDFromHex e.ID).isSome = true) ∧
    ((postPatient envPost (.object jp) db).1.status = 201 →
      ∃ e listed,
        (postPatient envPost (.object jp) db).1 = ⟨201, .patient e⟩ ∧
        (getPatient envGet (postPatient envPost (.object jp) db).2).1 = ⟨200, .patients listed⟩ ∧
        e ∈ listed ∧
        e.Name = jp.name.getD "" ∧ e.Age = jp.age.getD ⟨0⟩ ∧
        e.Condition = jp.condition.getD "" ∧ e.Checked = jp.checked.getD false ∧
        e.DoctorID = jp.doctorId.getD "" ∧
        e.ID ≠ "" ∧ isHex24 e.ID ∧ (ObjectIDFromHex e.ID).isSome = true) := by
  have hwf : (ObjectIDFromHex envPost.newObjectID.Hex).isSome = true := by
    rw [ObjectIDFromHex_Hex]; rfl
  constructor
  · by_cases hd : ∃ d ∈ db.doctors, d._id = .oid envPost.newObjectID
    · rw [postDoctor_duplicate envPost jd db h0 hd]
      simp [SendString]
    · have hn : ∀ d ∈ db.doctors, d._id ≠ .oid envPost.newObjectID :=
        fun d hm he => hd ⟨d, hm, he⟩
      rw [postDoctor_created envPost jd db h0 hn h1]
      intro _
      refine ⟨_, (db.doctors ++ [jd.stored envPost.newObjectID]).map DoctorDoc.decode, rfl,
        ?_, ?_, rfl, rfl, rfl, Hex_ne_empty _, (ObjectIDFromHex_isSome_iff _).mp hwf, hwf⟩
      · rw [getDoctor_working envGet _ g0 g1]
      · simp [DoctorJSON.stored, DoctorDoc.decode, BsonId.decode]
  · by_cases hd : ∃ d ∈ db.patients, d._id = .oid envPost.newObjectID
    · rw [postPatient_duplicate envPost jp db h0 hd]
      simp [SendString]
    · have hn : ∀ d ∈ db.patients, d._id ≠ .oid envPost.newObjectID :=
        fun d hm he => hd ⟨d, hm, he⟩
      rw [postPatient_created envPost jp db h0 hn h1]
      intro _
      refine ⟨_, (db.patients ++ [jp.stored envPost.newObjectID]).map PatientDoc.decode, rfl,
        ?_, ?_, rfl, rfl, rfl, rfl, rfl, Hex_ne_empty _,
        (ObjectIDFromHex_isSome_iff _).mp hwf, hwf⟩
      · rw [getPatient_working envGet _ g0 g1]
      · simp only [List.map_append, List.map_cons, List.map_nil, List.mem_append,
          List.mem_singleton]
        right
        simp only [PatientJSON.stored, PatientDoc.decode, BsonId.decode]
        by_cases h : jp.decode.DoctorID = "" <;> simp [h]

/-- C4 at a concrete request: `POST /doctor {name: "A", specialty: "X",
salary: 100}` on the empty database, then `GET /doctor`. -/
theorem C4_post_then_list_witness :
    ∃ listed,
      (postDoctor (Env.working oid1) (.object ⟨none, some "A", some "X", some ⟨100⟩⟩)
          Db.empty).1 = ⟨201, .doctor ⟨"000000000000000000000001", "A", "X", ⟨100⟩⟩⟩ ∧
      (getDoctor (Env.working oid2)
          (postDoctor (Env.working oid1) (.object ⟨none, some "A", some "X", some ⟨100⟩⟩)
            Db.empty).2).1 = ⟨200, .doctors listed⟩ ∧
      (⟨"000000000000000000000001", "A", "X", ⟨100⟩⟩ : Doctor) ∈ listed :=
  have h := (C4_post_then_list (Env.working oid1) (Env.working oid2)
    ⟨none, some "A", some "X", some ⟨100⟩⟩ ⟨none, none, none, none, none, none⟩ Db.empty
    rfl rfl rfl rfl).1 (by decide)
  match h with
  | ⟨e, listed, he, hl, hm, _⟩ =>
    have hee : e = ⟨"000000000000000000000001", "A", "X", ⟨100⟩⟩ := by
      have h2 : (postDoctor (Env.working oid1) (.object ⟨none, some "A", some "X", some ⟨100⟩⟩)
          Db.empty).1 = ⟨201, .doctor ⟨"000000000000000000000001", "A", "X", ⟨100⟩⟩⟩ := by
        decide
      rw [h2] at he
      simp only [Response.mk.injEq, ResponseBody.doctor.injEq, true_and] at he
      exact he.symm
    ⟨listed, hee ▸ he, hl, hee ▸ hm⟩

/-! ## PUT: a successful update -/

/-- C5: when the path id parses to `oid`, the body parses and the store's
update does not fail, then for a collection holding a document with that
identifier `PUT` answers 200 with the parsed entity carrying the path id; the
first (under the unique `_id` index, the only) document with that identifier
gets the body's values for every mutable field, zero where a member is left
out, and keeps its identifier; every other document and the other collection
stay as they were; and a following `GET` answers 200 and lists the entity with
that identifier (rendered in hexadecimal, which parses to the same identifier
as the path id and is the path id itself when that has no upper-case digit)
and the new field values. -/
theorem C5_put_replaces_fields (env envGet : Env) (idParam : String) (oid : ObjectID)
    (jd : DoctorJSON) (jp : PatientJSON) (db : Db)
    (hid : ObjectIDFromHex idParam = some oid) (hf : env.fault 0 = none)
    (g0 : envGet.fault 0 = none) (g1 : envGet.fault 1 = none) :
    ((∃ d ∈ db.doctors, d._id = .oid oid) →
      (putDoctor env idParam (.object jd) db).1 =
        ⟨200, .doctor ⟨idParam, jd.name.getD "", jd.specialty.getD "", jd.salary.getD ⟨0⟩⟩⟩ ∧
      (∃ pre d post, db.doctors = pre ++ d :: post ∧ d._id = .oid oid ∧
        (∀ x ∈ pre, x._id ≠ .oid oid) ∧
        (putDoctor env idParam (.object jd) db).2.doctors =
          pre ++ ⟨.oid oid, jd.name.getD "", jd.specialty.getD "", jd.salary.getD ⟨0⟩⟩ :: post) ∧
      (putDoctor env idParam (.object jd) db).2.patients = db.patients ∧
      (∃ listed, (getDoctor envGet (putDoctor env idParam (.object jd) db).2).1 =
          ⟨200, .doctors listed⟩ ∧
        (⟨oid.Hex, jd.name.getD "", jd.specialty.getD "", jd.salary.getD ⟨0⟩⟩ : Doctor) ∈ listed ∧
        ObjectIDFromHex oid.Hex = ObjectIDFromHex idParam ∧
        (noUpperHex idParam → oid.Hex = idParam))) ∧
    ((∃ d ∈ db.patients, d._id = .oid oid) →
      (putPatient env idParam (.object jp) db).1 =
        ⟨200, .patient ⟨idParam, jp.name.getD "", jp.age.getD ⟨0⟩, jp.condition.getD "",
          jp.checked.getD false, jp.doctorId.getD ""⟩⟩ ∧
      (∃ pre d post, db.patients = pre ++ d :: post ∧ d._id = .oid oid ∧
        (∀ x ∈ pre, x._id ≠ .oid oid) ∧
        (putPatient env idParam (.object jp) db).2.patients =
          pre ++ ⟨.oid oid, jp.name.getD "", jp.age.getD ⟨0⟩, jp.condition.getD "",
            jp.checked.getD false, some (jp.doctorId.getD "")⟩ :: post) ∧
      (putPatient env idParam (.object jp) db).2.doctors = db.doctors ∧
      (∃ listed, (getPatient envGet (putPatient env idParam (.object jp) db).2).1 =
          ⟨200, .patients listed⟩ ∧
        (⟨oid.Hex, jp.name.getD "", jp.age.getD ⟨0⟩, jp.condition.getD "",
          jp.checked.getD false, jp.doctorId.getD ""⟩ : Patient) ∈ listed ∧
        ObjectIDFromHex oid.Hex = ObjectIDFromHex idParam ∧
        (noUpperHex idParam → oid.Hex = idParam))) := by
  constructor
  · intro hp
    rw [putDoctor_present env idParam jd db oid hid hf hp]
    obtain ⟨pre, d, post, hsplit, hd, hpre, hupd⟩ :=
      updateFirst_decompose (fun x : DoctorDoc => decide (x._id = .oid oid))
        (fun x => { x with name := jd.decode.Name, specialty := jd.decode.Specialty
                           salary := jd.decode.Salary }) db.doctors
        (by obtain ⟨d, hm, he⟩ := hp; exact ⟨d, hm, by simpa using he⟩)
    have hd2 : d._id = .oid oid := by simpa using hd
    refine ⟨rfl, ⟨pre, d, post, hsplit, hd2, fun x hx => by simpa using hpre x hx, ?_⟩, rfl, ?_⟩
    · simp only [Db.record]
      rw [hupd, hd2]
      rfl
    · refine ⟨_, by rw [getDoctor_working envGet _ g0 g1], ?_,
        by rw [ObjectIDFromHex_Hex, hid], Hex_of_ObjectIDFromHex idParam oid hid⟩
      simp only [Db.record]
      rw [hupd, hd2]
      simp [DoctorDoc.decode, BsonId.decode, DoctorJSON.decode, Doctor.zero]
  · intro hp
    rw [putPatient_present env idParam jp db oid hid hf hp]
    obtain ⟨pre, d, post, hsplit, hd, hpre, hupd⟩ :=
      updateFirst_decompose (fun x : PatientDoc => decide (x._id = .oid oid))
        (fun x => { x with name := jp.decode.Name, age := jp.decode.Age
                           condition := jp.decode.Condition, checked := jp.decode.Checked
                           doctorId := some jp.decode.DoctorID }) db.patients
        (by obtain ⟨d, hm, he⟩ := hp; exact ⟨d, hm, by simpa using he⟩)
    have hd2 : d._id = .oid oid := by simpa using hd
    refine ⟨rfl, ⟨pre, d, post, hsplit, hd2, fun x hx => by simpa using hpre x hx, ?_⟩, rfl, ?_⟩
    · simp only [Db.record]
      rw [hupd, hd2]
      rfl
    · refine ⟨_, by rw [getPatient_working envGet _ g0 g1], ?_,
        by rw [ObjectIDFromHex_Hex, hid], Hex_of_ObjectIDFromHex idParam oid hid⟩
      simp only [Db.record]
      rw [hupd, hd2]
      simp [PatientDoc.decode, BsonId.decode, PatientJSON.decode, Patient.zero]

/-- C5 on the round trip of the contract: `POST /doctor {name: "A", specialty:
"X", salary: 100}` gives identifier `000000000000000000000001`; then
`PUT /doctor/000000000000000000000001 {name: "B", specialty: "X", salary: 150}`
answers 200 with name "B" and salary 150, and `GET /doctor` lists the entity
with that identifier and name "B". -/
theorem C5_put_replaces_fields_witness :
    (postDoctor (Env.working oid1) (.object ⟨none, some "A", some "X", some ⟨100⟩⟩)
        Db.empty).1 = ⟨201, .doctor ⟨"000000000000000000000001", "A", "X", ⟨100⟩⟩⟩ ∧
    (putDoctor (Env.working oid2) "000000000000000000000001"
        (.object ⟨none, some "B", some "X", some ⟨150⟩⟩)
        (postDoctor (Env.working oid1) (.object ⟨none, some "A", some "X", some ⟨100⟩⟩)
          Db.empty).2).1 = ⟨200, .doctor ⟨"000000000000000000000001", "B", "X", ⟨150⟩⟩⟩ ∧
    ∃ listed,
      (getDoctor (Env.working oid2)
        (putDoctor (Env.working oid2) "000000000000000000000001"
          (.object ⟨none, some "B", some "X", some ⟨150⟩⟩)
          (postDoctor (Env.working oid1) (.object ⟨none, some "A", some "X", some ⟨100⟩⟩)
            Db.empty).2).2).1 = ⟨200, .doctors listed⟩ ∧
      (⟨"000000000000000000000001", "B", "X", ⟨150⟩⟩ : Doctor) ∈ listed :=
  have h := (C5_put_replaces_fields (Env.working oid2) (Env.working oid2)
    "000000000000000000000001" oid1 ⟨none, some "B", some "X", some ⟨150⟩⟩
    ⟨none, none, none, none, none, none⟩
    (postDoctor (Env.working oid1) (.object ⟨none, some "A", some "X", some ⟨100⟩⟩) Db.empty).2
    (by decide) rfl rfl rfl).1 (by decide)
  match h.2.2.2 with
  | ⟨listed, hl, hm, _⟩ => ⟨by decide, h.1, listed, hl, hm⟩

/-! ## DELETE: exactly one document goes -/

/-- C6: when the path id parses to `oid`, the store's delete does not fail,
and the collection (keyed by distinct object identifiers) holds a document
with that identifier, `DELETE` answers 200 with "record deleted"; the `GET`
listing afterwards is the listing before without the entity of that
identifier, so no listed entity has the path id or an identifier that parses
to `oid`, every entity listed before under another identifier is still listed,
unchanged and in the same order, exactly one entity is gone, and the other
collection is as it was. -/
theorem C6_delete_removes_exactly (env envGet : Env) (idParam : String) (oid : ObjectID)
    (db : Db) (hid : ObjectIDFromHex idParam = some oid) (hf : env.fault 0 = none)
    (g0 : envGet.fault 0 = none) (g1 : envGet.fault 1 = none) :
    ((∃ d ∈ db.doctors, d._id = .oid oid) → ObjectIdKeyed (db.doctors.map DoctorDoc._id) →
      (deleteDoctor env idParam db).1 = ⟨200, .jsonString "record deleted"⟩ ∧
      (deleteDoctor env idParam db).2.patients = db.patients ∧
      ∃ before after,
        (getDoctor envGet db).1 = ⟨200, .doctors before⟩ ∧
        (getDoctor envGet (deleteDoctor env idParam db).2).1 = ⟨200, .doctors after⟩ ∧
        after = before.filter (fun e => decide (e.ID ≠ oid.Hex)) ∧
        (∀ e ∈ after, e.ID ≠ idParam ∧ ObjectIDFromHex e.ID ≠ some oid) ∧
        (∀ e ∈ before, ObjectIDFromHex e.ID ≠ some oid → e ∈ after) ∧
        after.length + 1 = before.length) ∧
    ((∃ d ∈ db.patients, d._id = .oid oid) → ObjectIdKeyed (db.patients.map PatientDoc._id) →
      (deletePatient env idParam db).1 = ⟨200, .jsonString "record deleted"⟩ ∧
      (deletePatient env idParam db).2.doctors = db.doctors ∧
      ∃ before after,
        (getPatient envGet db).1 = ⟨200, .patients before⟩ ∧
        (getPatient envGet (deletePatient env idParam db).2).1 = ⟨200, .patients after⟩ ∧
        after = before.filter (fun e => decide (e.ID ≠ oid.Hex)) ∧
        (∀ e ∈ after, e.ID ≠ idParam ∧ ObjectIDFromHex e.ID ≠ some oid) ∧
        (∀ e ∈ before, ObjectIDFromHex e.ID ≠ some oid → e ∈ after) ∧
        after.length + 1 = before.length) := by
  constructor
  · intro hp hk
    rw [deleteDoctor_present env idParam db oid hid hf hp]
    have herase := eraseP_eq_filter_of_nodup DoctorDoc._id (.oid oid) db.doctors hk.1
    have hfilter : (db.doctors.eraseP (fun x => decide (x._id = .oid oid))).map DoctorDoc.decode =
        (db.doctors.map DoctorDoc.decode).filter (fun e => decide (e.ID ≠ oid.Hex)) := by
      rw [herase, List.filter_map]
      congr 1
      apply List.filter_congr
      intro d hd
      have := decode_id_ne_iff _ hk.2 oid d._id (List.mem_map_of_mem DoctorDoc._id hd)
      simp only [Function.comp, DoctorDoc.decode]
      exact decide_eq_decide.mpr this
    refine ⟨rfl, rfl, db.doctors.map DoctorDoc.decode,
      (db.doctors.map DoctorDoc.decode).filter (fun e => decide (e.ID ≠ oid.Hex)),
      by rw [getDoctor_working envGet _ g0 g1], ?_, rfl, ?_, ?_, ?_⟩
    · rw [getDoctor_working envGet _ g0 g1]
      simp only [Db.record]
      rw [hfilter]
    · intro e he
      have hne : e.ID ≠ oid.Hex := by simpa using (List.mem_filter.mp he).2
      constructor
      · intro h
        have h1 : ObjectIDFromHex e.ID = some oid := by rw [h, hid]
        obtain ⟨d, hd, hde⟩ := List.mem_map.mp (List.mem_filter.mp he).1
        obtain ⟨o, ho⟩ := isOid_exists _ (hk.2 d._id (List.mem_map_of_mem DoctorDoc._id hd))
        have h2 : e.ID = o.Hex := by rw [← hde]; simp [DoctorDoc.decode, ho, BsonId.decode]
        rw [h2, ObjectIDFromHex_Hex] at h1
        exact hne (by rw [h2, Option.some.inj h1])
      · intro h1
        obtain ⟨d, hd, hde⟩ := List.mem_map.mp (List.mem_filter.mp he).1
        obtain ⟨o, ho⟩ := isOid_exists _ (hk.2 d._id (List.mem_map_of_mem DoctorDoc._id hd))
        have h2 : e.ID = o.Hex := by rw [← hde]; simp [DoctorDoc.decode, ho, BsonId.decode]
        rw [h2, ObjectIDFromHex_Hex] at h1
        exact hne (by rw [h2, Option.some.inj h1])
    · intro e he hne
      refine List.mem_filter.mpr ⟨he, ?_⟩
      have : e.ID ≠ oid.Hex := fun h => hne (by rw [h, ObjectIDFromHex_Hex])
      simpa using this
    · rw [← hfilter, List.length_map, List.length_map]
      obtain ⟨d, hd, hdo⟩ := hp
      have := List.length_eraseP_of_mem (p := fun x : DoctorDoc => decide (x._id = .oid oid)) hd
        (by simpa using hdo)
      have hpos : 0 < db.doctors.length := List.length_pos_of_mem hd
      omega
  · intro hp hk
    rw [deletePatient_present env idParam db oid hid hf hp]
    have herase := eraseP_eq_filter_of_nodup PatientDoc._id (.oid oid) db.patients hk.1
    have hfilter : (db.patients.eraseP (fun x => decide (x._id = .oid oid))).map
          PatientDoc.decode =
        (db.patients.map PatientDoc.decode).filter (fun e => decide (e.ID ≠ oid.Hex)) := by
      rw [herase, List.filter_map]
      congr 1
      apply List.filter_congr
      intro d hd
      have := decode_id_ne_iff _ hk.2 oid d._id (List.mem_map_of_mem PatientDoc._id hd)
      simp only [Function.comp, PatientDoc.decode]
      exact decide_eq_decide.mpr this
    refine ⟨rfl, rfl, db.patients.map PatientDoc.decode,
      (db.patients.map PatientDoc.decode).filter (fun e => decide (e.ID ≠ oid.Hex)),
      by rw [getPatient_working envGet _ g0 g1], ?_, rfl, ?_, ?_, ?_⟩
    · rw [getPatient_working envGet _ g0 g1]
      simp only [Db.record]
      rw [hfilter]
    · intro e he
      have hne : e.ID ≠ oid.Hex := by simpa using (List.mem_filter.mp he).2
      constructor
      · intro h
        have h1 : ObjectIDFromHex e.ID = some oid := by rw [h, hid]
        obtain ⟨d, hd, hde⟩ := List.mem_map.mp (List.mem_filter.mp he).1
        obtain ⟨o, ho⟩ := isOid_exists _ (hk.2 d._id (List.mem_map_of_mem PatientDoc._id hd))
        have h2 : e.ID = o.Hex := by rw [← hde]; simp [PatientDoc.decode, ho, BsonId.decode]
        rw [h2, ObjectIDFromHex_Hex] at h1
        exact hne (by rw [h2, Option.some.inj h1])
      · intro h1
        obtain ⟨d, hd, hde⟩ := List.mem_map.mp (List.mem_filter.mp he).1
        obtain ⟨o, ho⟩ := isOid_exists _ (hk.2 d._id (List.mem_map_of_mem PatientDoc._id hd))
        have h2 : e.ID = o.Hex := by rw [← hde]; simp [PatientDoc.decode, ho, BsonId.decode]
        rw [h2, ObjectIDFromHex_Hex] at h1
        exact hne (by rw [h2, Option.some.inj h1])
    · intro e he hne
      refine List.mem_filter.mpr ⟨he, ?_⟩
      have : e.ID ≠ oid.Hex := fun h => hne (by rw [h, ObjectIDFromHex_Hex])
      simpa using this
    · rw [← hfilter, List.length_map, List.length_map]
      obtain ⟨d, hd, hdo⟩ := hp
      have := List.length_eraseP_of_mem (p := fun x : PatientDoc => decide (x._id = .oid oid)) hd
        (by simpa using hdo)
      have hpos : 0 < db.patients.length := List.length_pos_of_mem hd
      omega

/-- C6 at a concrete request: `DELETE /doctor/000000000000000000000001` on a
collection that holds `oid1` and `oid2` leaves exactly the entity of `oid2`
in the listing. -/
theorem C6_delete_removes_exactly_witness :
    (deleteDoctor (Env.working oid1) "000000000000000000000001" Db.twoDoctors).1 =
      ⟨200, .jsonString "record deleted"⟩ ∧
    (getDoctor (Env.working oid1)
      (deleteDoctor (Env.working oid1) "000000000000000000000001" Db.twoDoctors).2).1 =
      ⟨200, .doctors [⟨"000000000000000000000002", "B", "Y", ⟨150⟩⟩]⟩ :=
  have h := (C6_delete_removes_exactly (Env.working oid1) (Env.working oid1)
    "000000000000000000000001" oid1 Db.twoDoctors (by decide) rfl rfl rfl).1 (by decide)
    (by decide)
  ⟨h.1, by decide⟩

/-! ## Patient: the `checked` flag -/

/-- What holds of `checked` on every path but the failed read-back: for a
patient body that leaves `checked` out (expected value false) or sets it to
true (expected value true), when `POST /patient` answers 201 the
document it appended to the collection has `checked` equal to the expected
value, and so has the returned entity when the read-back is served or the
expected value is false; when `PUT /patient/{id}` answers 200 the returned
entity, the value in the update sent to the store, and the updated document
all have `checked` equal to the expected value. -/
theorem patient_checked_carried (env : Env) (idParam : String) (j : PatientJSON) (db : Db)
    (expected : Bool)
    (hc : (j.checked = none ∧ expected = false) ∨ (j.checked = some true ∧ expected = true)) :
    ((postPatient env (.object j) db).1.status = 201 →
      (∃ doc, (postPatient env (.object j) db).2.patients = db.patients ++ [doc] ∧
        doc.checked = expected) ∧
      (∃ p rest, (postPatient env (.object j) db).2.log = db.log ++ .insertPatient p :: rest ∧
        p.Checked = expected) ∧
      (env.fault 1 = none ∨ expected = false →
        ∃ e, (postPatient env (.object j) db).1.body = .patient e ∧ e.Checked = expected)) ∧
    ((putPatient env idParam (.object j) db).1.status = 200 →
      (∃ e, (putPatient env idParam (.object j) db).1.body = .patient e ∧
        e.Checked = expected) ∧
      (∃ oid name age condition doctorId,
        ObjectIDFromHex idParam = some oid ∧
        (putPatient env idParam (.object j) db).2.log =
          db.log ++ [.updatePatient oid name age condition expected doctorId]) ∧
      (∃ oid pre d post updated,
        ObjectIDFromHex idParam = some oid ∧
        db.patients = pre ++ d :: post ∧ d._id = .oid oid ∧
        (putPatient env idParam (.object j) db).2.patients = pre ++ updated :: post ∧
        updated._id = .oid oid ∧ updated.checked = expected)) := by
  have hexp : j.decode.Checked = expected := by
    rcases hc with ⟨h1, h2⟩ | ⟨h1, h2⟩ <;> simp [PatientJSON.decode, Patient.zero, h1, h2]
  constructor
  · cases hf : env.fault 0 with
    | some f =>
      rw [postPatient_insert_fault env j db f hf]
      simp [SendString]
    | none =>
      by_cases hd : ∃ d ∈ db.patients, d._id = .oid env.newObjectID
      · rw [postPatient_duplicate env j db hf hd]
        simp [SendString]
      · have hn : ∀ d ∈ db.patients, d._id ≠ .oid env.newObjectID :=
          fun d hm he => hd ⟨d, hm, he⟩
        cases hr : env.fault 1 with
        | some f =>
          rw [postPatient_readback_fault env j db f hf hn hr]
          intro _
          refine ⟨⟨_, rfl, hexp⟩, ⟨{ j.decode with ID := "" }, _, rfl, hexp⟩, fun h => ?_⟩
          rcases h with h | h
          · simp at h
          · exact ⟨_, rfl, by rw [h]; rfl⟩
        | none =>
          rw [postPatient_created env j db hf hn hr]
          intro _
          exact ⟨⟨_, rfl, hexp⟩, ⟨{ j.decode with ID := "" }, _, rfl, hexp⟩,
            fun _ => ⟨_, rfl, hexp⟩⟩
  · cases hid : ObjectIDFromHex idParam with
    | none =>
      rw [putPatient_malformed_id env idParam _ db hid]
      simp [SendStatus]
    | some oid =>
      cases hf : env.fault 0 with
      | some f =>
        rw [putPatient_fault env idParam j db oid f hid hf]
        simp [SendStatus]
      | none =>
        by_cases hp : ∃ d ∈ db.patients, d._id = .oid oid
        · rw [putPatient_present env idParam j db oid hid hf hp]
          intro _
          obtain ⟨pre, d, post, hsplit, hd, -, hupd⟩ :=
            updateFirst_decompose (fun x : PatientDoc => decide (x._id = .oid oid))
              (fun x => { x with name := j.decode.Name, age := j.decode.Age
                                 condition := j.decode.Condition, checked := j.decode.Checked
                                 doctorId := some j.decode.DoctorID }) db.patients
              (by obtain ⟨d, hm, he⟩ := hp; exact ⟨d, hm, by simpa using he⟩)
          have hd2 : d._id = .oid oid := by simpa using hd
          refine ⟨⟨_, rfl, hexp⟩,
            ⟨oid, j.decode.Name, j.decode.Age, j.decode.Condition, j.decode.DoctorID, rfl, ?_⟩,
            ⟨oid, pre, d, post, _, rfl, hsplit, hd2, hupd, hd2, hexp⟩⟩
          simp only [Db.record, hexp]
        · have ha : ∀ d ∈ db.patients, d._id ≠ .oid oid := fun d hd he => hp ⟨d, hd, he⟩
          rw [putPatient_absent env idParam j db oid hid hf ha]
          simp [SendStatus]

/-- C9, at the failing input: on an empty database, `POST /patient` with body
`{name: "Q", age: 31, condition: "cold", checked: true}` whose insert succeeds
and whose read-back fails is answered 201 with an entity whose `checked` is
false (the zero `Patient`), while the document it stored has `checked` true. -/
theorem C9_post_readback_failure_returns_unchecked :
    (postPatient (Env.failingAt oid1 1 "connection reset")
        (.object ⟨none, some "Q", some ⟨31⟩, some "cold", some true, none⟩) Db.empty).1 =
      ⟨201, .patient ⟨"", "", ⟨0⟩, "", false, ""⟩⟩ ∧
    (postPatient (Env.failingAt oid1 1 "connection reset")
        (.object ⟨none, some "Q", some ⟨31⟩, some "cold", some true, none⟩)
        Db.empty).2.patients = [⟨.oid oid1, "Q", ⟨31⟩, "cold", true, none⟩] := by
  decide

/-! ## Patient: `doctorId` is not checked against the doctors -/

/-- What holds of `doctorId` on every path but the failed read-back:
`POST /patient` and `PUT /patient/{id}` never look at the collection
`doctors`: for every body, replacing the doctors by any other contents changes
neither the response nor the resulting patients, and the doctors are left as
they were. The `doctorId` of a parsed body, whatever string it is, is carried
verbatim: on a 201 the appended document decodes to it, and the returned
entity has it when the read-back is served or the value is empty; on a 200 of
`PUT` the returned entity has it and the updated document holds it. -/
theorem patient_handlers_ignore_doctors (env : Env) (idParam : String)
    (body : RequestBody PatientJSON) (j : PatientJSON) (db : Db) (others : List DoctorDoc) :
    ((postPatient env body { db with doctors := others }).1 = (postPatient env body db).1 ∧
     (postPatient env body { db with doctors := others }).2.patients =
       (postPatient env body db).2.patients ∧
     (postPatient env body db).2.doctors = db.doctors) ∧
    ((putPatient env idParam body { db with doctors := others }).1 =
       (putPatient env idParam body db).1 ∧
     (putPatient env idParam body { db with doctors := others }).2.patients =
       (putPatient env idParam body db).2.patients ∧
     (putPatient env idParam body db).2.doctors = db.doctors) ∧
    ((postPatient env (.object j) db).1.status = 201 →
      (∃ doc, (postPatient env (.object j) db).2.patients = db.patients ++ [doc] ∧
        doc.decode.DoctorID = j.doctorId.getD "") ∧
      (env.fault 1 = none ∨ j.doctorId.getD "" = "" →
        ∃ e, (postPatient env (.object j) db).1.body = .patient e ∧
          e.DoctorID = j.doctorId.getD "")) ∧
    ((putPatient env idParam (.object j) db).1.status = 200 →
      (∃ e, (putPatient env idParam (.object j) db).1.body = .patient e ∧
        e.DoctorID = j.doctorId.getD "") ∧
      (∃ oid pre d post updated,
        ObjectIDFromHex idParam = some oid ∧
        db.patients = pre ++ d :: post ∧ d._id = .oid oid ∧
        (putPatient env idParam (.object j) db).2.patients = pre ++ updated :: post ∧
        updated._id = .oid oid ∧ updated.doctorId = some (j.doctorId.getD ""))) := by
  refine ⟨?_, ?_, ?_, ?_⟩
  · cases body with
    | unparsable err =>
      rw [postPatient_unparsable, postPatient_unparsable]
      exact ⟨rfl, rfl, rfl⟩
    | object jb =>
      cases hf : env.fault 0 with
      | some f =>
        rw [postPatient_insert_fault env jb db f hf,
          postPatient_insert_fault env jb { db with doctors := others } f hf]
        by_cases ha : f.applied = true
        · rw [if_pos ha, if_pos ha]
          refine ⟨rfl, ?_, ?_⟩
          · simp only [insertPatient_patients, Db.record]
          · simp only [insertPatient_doctors, Db.record]
        · rw [if_neg ha, if_neg ha]
          exact ⟨rfl, rfl, rfl⟩
      | none =>
        by_cases hd : ∃ d ∈ db.patients, d._id = .oid env.newObjectID
        · rw [postPatient_duplicate env jb db hf hd,
            postPatient_duplicate env jb { db with doctors := others } hf hd]
          exact ⟨rfl, rfl, rfl⟩
        · have hn : ∀ d ∈ db.patients, d._id ≠ .oid env.newObjectID :=
            fun d hm he => hd ⟨d, hm, he⟩
          cases hr : env.fault 1 with
          | some f =>
            rw [postPatient_readback_fault env jb db f hf hn hr,
              postPatient_readback_fault env jb { db with doctors := others } f hf hn hr]
            exact ⟨rfl, rfl, rfl⟩
          | none =>
            rw [postPatient_created env jb db hf hn hr,
              postPatient_created env jb { db with doctors := others } hf hn hr]
            exact ⟨rfl, rfl, rfl⟩
  · cases hid : ObjectIDFromHex idParam with
    | none =>
      rw [putPatient_malformed_id env idParam body db hid,
        putPatient_malformed_id env idParam body _ hid]
      exact ⟨rfl, rfl, rfl⟩
    | some oid =>
      cases body with
      | unparsable err =>
        rw [putPatient_malformed_body env idParam err db oid hid,
          putPatient_malformed_body env idParam err _ oid hid]
        exact ⟨rfl, rfl, rfl⟩
      | object jb =>
        cases hf : env.fault 0 with
        | some f =>
          rw [putPatient_fault env idParam jb db oid f hid hf,
            putPatient_fault env idParam jb { db with doctors := others } oid f hid hf]
          by_cases ha : f.applied = true
          · rw [if_pos ha, if_pos ha]
            exact ⟨rfl, rfl, rfl⟩
          · rw [if_neg ha, if_neg ha]
            exact ⟨rfl, rfl, rfl⟩
        | none =>
          by_cases hp : ∃ d ∈ db.patients, d._id = .oid oid
          · rw [putPatient_present env idParam jb db oid hid hf hp,
              putPatient_present env idParam jb { db with doctors := others } oid hid hf hp]
            exact ⟨rfl, rfl, rfl⟩
          · have ha : ∀ d ∈ db.patients, d._id ≠ .oid oid := fun d hd he => hp ⟨d, hd, he⟩
            rw [putPatient_absent env idParam jb db oid hid hf ha,
              putPatient_absent env idParam jb { db with doctors := others } oid hid hf ha]
            exact ⟨rfl, rfl, rfl⟩
  · have hstored : ∀ o, (j.stored o).decode.DoctorID = j.doctorId.getD "" := by
      intro o
      simp only [PatientJSON.stored, PatientDoc.decode, PatientJSON.decode, Patient.zero]
      by_cases h : j.doctorId.getD "" = "" <;> simp [h]
    cases hf : env.fault 0 with
    | some f =>
      rw [postPatient_insert_fault env j db f hf]
      simp [SendString]
    | none =>
      by_cases hd : ∃ d ∈ db.patients, d._id = .oid env.newObjectID
      · rw [postPatient_duplicate env j db hf hd]
        simp [SendString]
      · have hn : ∀ d ∈ db.patients, d._id ≠ .oid env.newObjectID :=
          fun d hm he => hd ⟨d, hm, he⟩
        cases hr : env.fault 1 with
        | some f =>
          rw [postPatient_readback_fault env j db f hf hn hr]
          intro _
          refine ⟨⟨_, rfl, hstored _⟩, fun h => ?_⟩
          rcases h with h | h
          · simp at h
          · exact ⟨_, rfl, by rw [h]; rfl⟩
        | none =>
          rw [postPatient_created env j db hf hn hr]
          intro _
          exact ⟨⟨_, rfl, hstored _⟩, fun _ => ⟨_, rfl, rfl⟩⟩
  · cases hid : ObjectIDFromHex idParam with
    | none =>
      rw [putPatient_malformed_id env idParam _ db hid]
      simp [SendStatus]
    | some oid =>
      cases hf : env.fault 0 with
      | some f =>
        rw [putPatient_fault env idParam j db oid f hid hf]
        simp [SendStatus]
      | none =>
        by_cases hp : ∃ d ∈ db.patients, d._id = .oid oid
        · rw [putPatient_present env idParam j db oid hid hf hp]
          intro _
          obtain ⟨pre, d, post, hsplit, hd, -, hupd⟩ :=
            updateFirst_decompose (fun x : PatientDoc => decide (x._id = .oid oid))
              (fun x => { x with name := j.decode.Name, age := j.decode.Age
                                 condition := j.decode.Condition, checked := j.decode.Checked
                                 doctorId := some j.decode.DoctorID }) db.patients
              (by obtain ⟨d, hm, he⟩ := hp; exact ⟨d, hm, by simpa using he⟩)
          have hd2 : d._id = .oid oid := by simpa using hd
          exact ⟨⟨_, rfl, rfl⟩, ⟨oid, pre, d, post, _, rfl, hsplit, hd2, hupd, hd2, rfl⟩⟩
        · have ha : ∀ d ∈ db.patients, d._id ≠ .oid oid := fun d hd he => hp ⟨d, hd, he⟩
          rw [putPatient_absent env idParam j db oid hid hf ha]
          simp [SendStatus]


/-- C10, at the failing input: on an empty database, `POST /patient` with body
`{name: "R", age: 40, condition: "cough", doctorId: "nobody"}` whose insert
succeeds and whose read-back fails is answered 201 with an entity whose
`doctorId` is empty (the zero `Patient`), while the document it stored holds
`doctorId` "nobody". -/
theorem C10_post_readback_failure_drops_doctorId :
    (postPatient (Env.failingAt oid1 1 "connection reset")
        (.object ⟨none, some "R", some ⟨40⟩, some "cough", none, some "nobody"⟩) Db.empty).1 =
      ⟨201, .patient ⟨"", "", ⟨0⟩, "", false, ""⟩⟩ ∧
    (postPatient (Env.failingAt oid1 1 "connection reset")
        (.object ⟨none, some "R", some ⟨40⟩, some "cough", none, some "nobody"⟩)
        Db.empty).2.patients = [⟨.oid oid1, "R", ⟨40⟩, "cough", false, some "nobody"⟩] := by
  decide

end HRMS
